import Mathlib

/-!
# AMBETools: the command-line front ends AMBE2WAV and WAV2AMBE

A shallow embedding of `AMBE2WAV/AMBE2WAV.cpp` and `WAV2AMBE/WAV2AMBE.cpp`:

* the bundled `getopt` (the `_WIN32` branch of both files, textually identical),
* `main` of both programs (option loop, argument-count check, mode and FEC checks,
  construction of the converter object and the call of `run`),
* `CAMBE2WAV::run` and `CWAV2AMBE::run`.

Conventions.

* A C string is the Lean `String` of its characters before the terminating NUL;
  reading the terminator yields `Char.ofNat 0` (`charAt`).
* `int` values are `Int`; `optind` only ever grows from 1 and is a `Nat`;
  the `unsigned int` cast of `speed` is taken modulo `2 ^ 32`.
* The file readers and writers and `CDV3000SerialController` are external classes.
  Every call made on them is recorded as an `Event`, in program order; what they
  answer is read from a `World`.
* `atoi` is a libc function and is a parameter of `main`; the `float` produced by
  `atof` is kept symbolically (`Amplitude`).
* `AUDIO_SAMPLE_RATE` and `AUDIO_BLOCK_SIZE` come from a header that is not part
  of the two files and are parameters (`AudioDefs`).
* The `while` loop of `main` is run with fuel; `Outcome.outOfFuel` is the answer
  when the fuel does not suffice.
-/

namespace AMBETools

/-! ## Data model -/

/-- The enumerators of `AMBE_MODE` named by the two programs. -/
inductive AMBE_MODE
  | MODE_DSTAR
  | MODE_DMR
  | MODE_YSF
  | MODE_P25
  | MODE_UNKNOWN
  deriving DecidableEq

/-- The value of the `float amplitude` variable of `main`: either the initialiser `1.0F`
or `float(::atof(optarg))` for the recorded `optarg`. -/
inductive Amplitude
  | lit_1_0
  | of_atof (optarg : String)
  deriving DecidableEq

/-- Every observable action of `main` and `run`: a write to `stderr`, or a call on one of
the external objects (`reader`, `writer`, `controller`), with the arguments of the call and,
for the `open` calls, the value returned. -/
inductive Event
  | stderr (msg : String)
  | AMBEFileReader_ctor (input signature : String)
  | WAVFileReader_ctor (input : String) (blockSize : Nat)
  | WAVFileWriter_ctor (output : String) (sampleRate channels sampleWidth blockSize : Nat)
  | AMBEFileWriter_ctor (output signature : String)
  | reader_open (ret : Bool)
  | reader_close
  | writer_open (ret : Bool)
  | writer_close
  | controller_ctor (port : String) (speed : Nat) (mode : AMBE_MODE) (fec : Bool)
      (amplitude : Amplitude) (reset : Bool)
  | controller_open (ret : Bool)
  | controller_process (fatal : Bool)
  | controller_close
  deriving DecidableEq

/-- What the external objects answer during one call of `run`.  `processFatal` tells whether
`controller.process()` ended in a fatal device or link error. -/
structure World where
  readerOpen : Bool
  sampleRate : Nat
  channels : Nat
  writerOpen : Bool
  controllerOpen : Bool
  processFatal : Bool
  deriving DecidableEq

/-- The two constants taken from the audio header. -/
structure AudioDefs where
  AUDIO_SAMPLE_RATE : Nat
  AUDIO_BLOCK_SIZE : Nat
  deriving DecidableEq

/-- Result of a computation that may loop or leave defined behaviour. -/
inductive Outcome (α : Type)
  | done (a : α)
  | undefined
  | outOfFuel
  deriving DecidableEq

/-! ## The bundled getopt -/

/-- The globals `char* optarg = NULL; int optind = 1;`. -/
structure GetoptState where
  optarg : Option String
  optind : Nat
  deriving DecidableEq

/-- Initial values of the globals. -/
def GetoptState.init : GetoptState := ⟨none, 1⟩

/-- What one call of `getopt` does: it returns `c` and leaves the globals as `st`, or it reads
past the end of `optstring`. -/
inductive GetoptResult
  | ret (c : Int) (st : GetoptState)
  | undefined
  deriving DecidableEq

/-- The byte `s[i]` of a C string, for `i` up to its length. -/
def charAt (s : String) (i : Nat) : Char :=
  s.data.getD i (Char.ofNat 0)

/-- The `int` value of a character constant. -/
def chr (c : Char) : Int :=
  Int.ofNat c.toNat

/-- Library `strchr`: the suffix starting at the first occurrence of `c`, where the terminating
NUL counts as part of the string (the suffix is then empty); `none` is `NULL`. -/
def strchr : List Char → Char → Option (List Char)
  | [], c => if c = Char.ofNat 0 then some [] else none
  | x :: xs, c => if x = c then some (x :: xs) else strchr xs c

/-- The bundled `getopt(argc, argv, optstring)`, with `argc = argv.length`. -/
def getopt (argv : List String) (optstring : String) (st : GetoptState) : GetoptResult :=
  let argc := argv.length
  if st.optind ≥ argc then .ret (-1) st
  else
    let arg := argv.getD st.optind ""
    if charAt arg 0 ≠ '-' ∨ charAt arg 0 = Char.ofNat 0 then .ret (-1) st
    else
      let opt := charAt arg 1
      match strchr optstring.data opt with
      | none => .ret (chr '?') st
      | some [] => .undefined
      | some (_ :: rest) =>
        if rest.headD (Char.ofNat 0) = ':' then
          let optind1 := st.optind + 1
          if optind1 ≥ argc then .ret (chr '?') { st with optind := optind1 }
          else .ret (chr opt) { optarg := some (argv.getD optind1 ""), optind := optind1 + 1 }
        else .ret (chr opt) st

/-! ## main -/

/-- The local variables of `main` that the option loop assigns. -/
structure MainVars where
  amplitude : Amplitude
  signature : String
  mode : AMBE_MODE
  fec : Bool
  port : String
  speed : Nat
  reset : Bool
  deriving DecidableEq

/-- The initialisers of the local variables of `main`. -/
def MainVars.init : MainVars :=
  { amplitude := .lit_1_0, signature := "", mode := .MODE_DSTAR, fec := true,
    port := "/dev/ttyUSB0", speed := 230400, reset := false }

/-- The usage line of program `name`. -/
def usage (name : String) : String :=
  "Usage: " ++ name ++ " [-a amplitude] [-g <signature>] [-m dstar|dmr|ysf|p25] [-f 0|1] [-p <port>] [-s <speed>] [-r] <input> <output>\n"

/-- The `strcmp` chain of `case 'm'`. -/
def modeOfOptarg (optarg : String) : AMBE_MODE :=
  if optarg = "dstar" then .MODE_DSTAR
  else if optarg = "dmr" then .MODE_DMR
  else if optarg = "ysf" then .MODE_YSF
  else if optarg = "p25" then .MODE_P25
  else .MODE_UNKNOWN

/-- The `switch (c)` of the option loop.  Using `optarg` while it is `NULL` is undefined. -/
def switchBody (atoi : String → Int) (name : String) (c : Int) (optarg : Option String)
    (v : MainVars) (tr : List Event) : Outcome (MainVars × List Event) :=
  if c = chr 'a' then
    match optarg with
    | none => .undefined
    | some s => .done ({ v with amplitude := .of_atof s }, tr)
  else if c = chr 'f' then
    match optarg with
    | none => .undefined
    | some s => .done ({ v with fec := decide (atoi s ≠ 0) }, tr)
  else if c = chr 'g' then
    match optarg with
    | none => .undefined
    | some s => .done ({ v with signature := s }, tr)
  else if c = chr 'm' then
    match optarg with
    | none => .undefined
    | some s => .done ({ v with mode := modeOfOptarg s }, tr)
  else if c = chr 'p' then
    match optarg with
    | none => .undefined
    | some s => .done ({ v with port := s }, tr)
  else if c = chr 'r' then
    .done ({ v with reset := true }, tr)
  else if c = chr 's' then
    match optarg with
    | none => .undefined
    | some s => .done ({ v with speed := (atoi s % 2 ^ 32).toNat }, tr)
  else if c = chr '?' then
    .done (v, tr)
  else
    .done (v, tr ++ [Event.stderr (usage name)])

/-- The loop `while ((c = ::getopt(argc, argv, "a:f:g:m:p:rs:")) != -1) switch (c) ...`. -/
def mainLoop (atoi : String → Int) (name : String) (argv : List String) :
    Nat → GetoptState → MainVars → List Event → Outcome (GetoptState × MainVars × List Event)
  | 0, _, _, _ => .outOfFuel
  | fuel + 1, st, v, tr =>
    match getopt argv "a:f:g:m:p:rs:" st with
    | .undefined => .undefined
    | .ret c st1 =>
      if c = -1 then .done (st1, v, tr)
      else
        match switchBody atoi name c st1.optarg v tr with
        | .done (v1, tr1) => mainLoop atoi name argv fuel st1 v1 tr1
        | .undefined => .undefined
        | .outOfFuel => .outOfFuel

/-- The part of `main` after the option loop.  `construct_and_run` stands for
`new C(signature, mode, fec, port, speed, amplitude, reset, argv[argc - 2], argv[argc - 1])`
followed by `run()`; the arguments are passed in that order. -/
def mainTail (name : String)
    (construct_and_run : String → AMBE_MODE → Bool → String → Nat → Amplitude → Bool →
      String → String → Int × List Event)
    (argv : List String) (st : GetoptState) (v : MainVars) (tr : List Event) :
    Int × List Event :=
  let argc : Int := argv.length
  if (st.optind : Int) > argc - 2 then
    (1, tr ++ [Event.stderr (usage name)])
  else if v.mode = .MODE_UNKNOWN then
    (1, tr ++ [Event.stderr (name ++ ": unknown mode specified\n")])
  else if v.mode = .MODE_DSTAR ∧ v.fec = false then
    (1, tr ++ [Event.stderr (name ++ ": incompatible mode and FEC settings\n")])
  else if v.mode = .MODE_YSF ∧ v.fec = false then
    (1, tr ++ [Event.stderr (name ++ ": incompatible mode and FEC settings\n")])
  else
    let r := construct_and_run v.signature v.mode v.fec v.port v.speed v.amplitude v.reset
      (argv.getD (argv.length - 2) "") (argv.getD (argv.length - 1) "")
    (r.1, tr ++ r.2)

/-- The function `main` of either program: the option loop from the initial globals and
locals, then `mainTail`. -/
def mainBody (atoi : String → Int) (name : String)
    (construct_and_run : String → AMBE_MODE → Bool → String → Nat → Amplitude → Bool →
      String → String → Int × List Event)
    (fuel : Nat) (argv : List String) : Outcome (Int × List Event) :=
  match mainLoop atoi name argv fuel GetoptState.init MainVars.init [] with
  | .done (st, v, tr) => .done (mainTail name construct_and_run argv st v tr)
  | .undefined => .undefined
  | .outOfFuel => .outOfFuel

/-! ## AMBE2WAV -/

/-- The data members of class `CAMBE2WAV`. -/
structure CAMBE2WAV where
  m_signature : String
  m_mode : AMBE_MODE
  m_fec : Bool
  m_port : String
  m_speed : Nat
  m_amplitude : Amplitude
  m_reset : Bool
  m_input : String
  m_output : String
  deriving DecidableEq

/-- The constructor `CAMBE2WAV::CAMBE2WAV`. -/
def CAMBE2WAV.ctor (signature : String) (mode : AMBE_MODE) (fec : Bool) (port : String)
    (speed : Nat) (amplitude : Amplitude) (reset : Bool) (input output : String) : CAMBE2WAV :=
  { m_signature := signature, m_mode := mode, m_fec := fec, m_port := port, m_speed := speed,
    m_amplitude := amplitude, m_reset := reset, m_input := input, m_output := output }

/-- The method `CAMBE2WAV::run`: the exit code and the calls made, in order. -/
def CAMBE2WAV.run (K : AudioDefs) (w : World) (self : CAMBE2WAV) : Int × List Event :=
  let tr := [Event.AMBEFileReader_ctor self.m_input self.m_signature,
    Event.reader_open w.readerOpen]
  if w.readerOpen = false then (1, tr)
  else
    let tr := tr ++ [Event.WAVFileWriter_ctor self.m_output K.AUDIO_SAMPLE_RATE 1 16
      K.AUDIO_BLOCK_SIZE, Event.writer_open w.writerOpen]
    if w.writerOpen = false then (1, tr ++ [Event.reader_close])
    else
      let tr := tr ++ [Event.controller_ctor self.m_port self.m_speed self.m_mode self.m_fec
        self.m_amplitude self.m_reset, Event.controller_open w.controllerOpen]
      if w.controllerOpen = false then (1, tr ++ [Event.writer_close, Event.reader_close])
      else
        (0, tr ++ [Event.controller_process w.processFatal, Event.controller_close,
          Event.writer_close, Event.reader_close])

/-- The function `main` of AMBE2WAV. -/
def AMBE2WAV.main (atoi : String → Int) (K : AudioDefs) (w : World) (fuel : Nat)
    (argv : List String) : Outcome (Int × List Event) :=
  mainBody atoi "AMBE2WAV"
    (fun signature mode fec port speed amplitude reset input output =>
      (CAMBE2WAV.ctor signature mode fec port speed amplitude reset input output).run K w)
    fuel argv

/-! ## WAV2AMBE -/

/-- The data members of class `CWAV2AMBE`. -/
structure CWAV2AMBE where
  m_signature : String
  m_mode : AMBE_MODE
  m_fec : Bool
  m_port : String
  m_speed : Nat
  m_amplitude : Amplitude
  m_reset : Bool
  m_input : String
  m_output : String
  deriving DecidableEq

/-- The constructor `CWAV2AMBE::CWAV2AMBE`. -/
def CWAV2AMBE.ctor (signature : String) (mode : AMBE_MODE) (fec : Bool) (port : String)
    (speed : Nat) (amplitude : Amplitude) (reset : Bool) (input output : String) : CWAV2AMBE :=
  { m_signature := signature, m_mode := mode, m_fec := fec, m_port := port, m_speed := speed,
    m_amplitude := amplitude, m_reset := reset, m_input := input, m_output := output }

/-- The method `CWAV2AMBE::run`: the exit code and the calls made, in order. -/
def CWAV2AMBE.run (K : AudioDefs) (w : World) (self : CWAV2AMBE) : Int × List Event :=
  let tr := [Event.WAVFileReader_ctor self.m_input K.AUDIO_BLOCK_SIZE,
    Event.reader_open w.readerOpen]
  if w.readerOpen = false then (1, tr)
  else if w.sampleRate ≠ K.AUDIO_SAMPLE_RATE then
    (1, tr ++ [Event.stderr "WAV2AMBE: input file has the wrong sample rate\n",
      Event.reader_close])
  else if w.channels > 1 then
    (1, tr ++ [Event.stderr "WAV2AMBE: input file has too many channels\n",
      Event.reader_close])
  else
    let tr := tr ++ [Event.AMBEFileWriter_ctor self.m_output self.m_signature,
      Event.writer_open w.writerOpen]
    if w.writerOpen = false then (1, tr ++ [Event.reader_close])
    else
      let tr := tr ++ [Event.controller_ctor self.m_port self.m_speed self.m_mode self.m_fec
        self.m_amplitude self.m_reset, Event.controller_open w.controllerOpen]
      if w.controllerOpen = false then (1, tr ++ [Event.writer_close, Event.reader_close])
      else
        (0, tr ++ [Event.controller_process w.processFatal, Event.controller_close,
          Event.writer_close, Event.reader_close])

/-- The function `main` of WAV2AMBE. -/
def WAV2AMBE.main (atoi : String → Int) (K : AudioDefs) (w : World) (fuel : Nat)
    (argv : List String) : Outcome (Int × List Event) :=
  mainBody atoi "WAV2AMBE"
    (fun signature mode fec port speed amplitude reset input output =>
      (CWAV2AMBE.ctor signature mode fec port speed amplitude reset input output).run K w)
    fuel argv

/-! ## Predicates on events and sample inputs -/

/-- Whether an event is a call on an external object (reader, writer or controller), as
opposed to a message on `stderr`. -/
def Event.isCall : Event → Bool
  | .stderr _ => false
  | _ => true

/-- Whether an event is a call on the writer or on the serial controller. -/
def Event.onWriterOrController : Event → Bool
  | .WAVFileWriter_ctor _ _ _ _ _ => true
  | .AMBEFileWriter_ctor _ _ => true
  | .writer_open _ => true
  | .writer_close => true
  | .controller_ctor _ _ _ _ _ _ => true
  | .controller_open _ => true
  | .controller_process _ => true
  | .controller_close => true
  | _ => false

/-- Whether an event is a call of `controller.process()`. -/
def Event.isProcess : Event → Bool
  | .controller_process _ => true
  | _ => false

/-- Sample values of the two audio constants. -/
def sampleDefs : AudioDefs := { AUDIO_SAMPLE_RATE := 8000, AUDIO_BLOCK_SIZE := 160 }

/-- A world in which everything opens, the input is 8000 Hz mono, and `process()` succeeds. -/
def worldOk : World :=
  { readerOpen := true, sampleRate := 8000, channels := 1, writerOpen := true,
    controllerOpen := true, processFatal := false }

/-- A world in which everything opens and `process()` ends in a fatal device error. -/
def worldProcessFatal : World := { worldOk with processFatal := true }

/-- A world in which reader and writer open and the serial controller does not. -/
def worldControllerFails : World := { worldOk with controllerOpen := false }

/-- A world in which only the reader opens. -/
def worldWriterFails : World := { worldOk with writerOpen := false }

/-- A world whose WAV input reports zero channels at the expected sample rate. -/
def worldZeroChannels : World := { worldOk with channels := 0 }

/-- A world whose WAV input is stereo. -/
def worldStereo : World := { worldOk with channels := 2 }

/-- A converter object as `main` builds it from `AMBE2WAV in.ambe out.wav`. -/
def sampleAMBE2WAV : CAMBE2WAV :=
  CAMBE2WAV.ctor "" .MODE_DSTAR true "/dev/ttyUSB0" 230400 .lit_1_0 false "in.ambe" "out.wav"

/-- A converter object as `main` builds it from `WAV2AMBE in.wav out.ambe`. -/
def sampleWAV2AMBE : CWAV2AMBE :=
  CWAV2AMBE.ctor "" .MODE_DSTAR true "/dev/ttyUSB0" 230400 .lit_1_0 false "in.wav" "out.ambe"

/-! ## Command lines made of options with arguments -/

/-- A stand-in for libc `atoi`, used for the sample command lines only: the decimal digits
after an optional minus sign, up to the first other character. -/
def sampleAtoi (s : String) : Int :=
  match s.data with
  | '-' :: ds =>
    - Int.ofNat ((ds.takeWhile Char.isDigit).foldl (fun n d => 10 * n + (d.toNat - 48)) 0)
  | ds =>
    Int.ofNat ((ds.takeWhile Char.isDigit).foldl (fun n d => 10 * n + (d.toNat - 48)) 0)

/-- The option letters that take an argument. -/
def argLetters : List Char := ['a', 'f', 'g', 'm', 'p', 's']

/-- A command-line word that the bundled `getopt` reads as an option taking an argument: it
starts with `-` and its second character is one of the letters followed by `:` in the option
string. -/
def isOptionWithArg (t : String) : Prop :=
  charAt t 0 = '-' ∧ charAt t 1 ∈ argLetters

/-- Whether a word is an option taking an argument can be computed. -/
instance isOptionWithArg.decidable (t : String) : Decidable (isOptionWithArg t) :=
  inferInstanceAs (Decidable (charAt t 0 = '-' ∧ charAt t 1 ∈ argLetters))

/-- The words of a sequence of options, each followed by its argument. -/
def optionWords : List (String × String) → List String
  | [] => []
  | p :: ps => p.1 :: p.2 :: optionWords ps

/-- The assignment that `main` makes for one option word and its argument. -/
def applyOption (atoi : String → Int) (v : MainVars) (p : String × String) : MainVars :=
  if charAt p.1 1 = 'a' then { v with amplitude := .of_atof p.2 }
  else if charAt p.1 1 = 'f' then { v with fec := decide (atoi p.2 ≠ 0) }
  else if charAt p.1 1 = 'g' then { v with signature := p.2 }
  else if charAt p.1 1 = 'm' then { v with mode := modeOfOptarg p.2 }
  else if charAt p.1 1 = 'p' then { v with port := p.2 }
  else if charAt p.1 1 = 's' then { v with speed := (atoi p.2 % 2 ^ 32).toNat }
  else v

/-- The argument of the last `-m` among a sequence of options with arguments. -/
def lastModeArg (ps : List (String × String)) : Option String :=
  (ps.reverse.find? (fun p => charAt p.1 1 = 'm')).map Prod.snd

/-- The mode selected by a sequence of options with arguments: that of the last `-m`, or the
initial `MODE_DSTAR` when there is none. -/
def selectedMode (ps : List (String × String)) : AMBE_MODE :=
  match lastModeArg ps with
  | none => .MODE_DSTAR
  | some s => modeOfOptarg s

/-! ## Lemmas -/

/-- The `switch` only ever appends `stderr` messages to the list of events. -/
theorem switchBody_trace (atoi : String → Int) (name : String) (c : Int) (oa : Option String)
    (v v1 : MainVars) (tr tr1 : List Event)
    (h : switchBody atoi name c oa v tr = .done (v1, tr1)) :
    ∃ extra, tr1 = tr ++ extra ∧ ∀ e ∈ extra, e.isCall = false := by
  unfold switchBody at h
  split_ifs at h
  all_goals first
    | (simp at h
       obtain ⟨_, rfl⟩ := h
       refine ⟨[], (List.append_nil _).symm, ?_⟩
       simp)
    | (simp at h
       obtain ⟨_, rfl⟩ := h
       refine ⟨[Event.stderr (usage name)], rfl, ?_⟩
       simp [Event.isCall])
    | (cases oa
       · simp at h
       · simp at h
         obtain ⟨_, rfl⟩ := h
         refine ⟨[], (List.append_nil _).symm, ?_⟩
         simp)

/-- The option loop only ever appends `stderr` messages to the list of events. -/
theorem mainLoop_trace (atoi : String → Int) (name : String) (argv : List String) :
    ∀ (fuel : Nat) (st : GetoptState) (v : MainVars) (tr : List Event)
      (st1 : GetoptState) (v1 : MainVars) (tr1 : List Event),
      mainLoop atoi name argv fuel st v tr = .done (st1, v1, tr1) →
      ∃ extra, tr1 = tr ++ extra ∧ ∀ e ∈ extra, e.isCall = false := by
  intro fuel
  induction fuel with
  | zero => intro st v tr st1 v1 tr1 h; simp [mainLoop] at h
  | succ n ih =>
    intro st v tr st1 v1 tr1 h
    unfold mainLoop at h
    split at h
    · simp at h
    · rename_i c st2 hg
      split_ifs at h with hc
      · simp at h
        exact ⟨[], by simp [h.2.2.symm]⟩
      · split at h
        · rename_i v2 tr2 hs
          obtain ⟨e1, he1, hc1⟩ := switchBody_trace atoi name c _ v v2 tr tr2 hs
          obtain ⟨e2, he2, hc2⟩ := ih st2 v2 tr2 st1 v1 tr1 h
          refine ⟨e1 ++ e2, by simp [he2, he1], ?_⟩
          intro e he
          rcases List.mem_append.mp he with h1 | h1
          · exact hc1 e h1
          · exact hc2 e h1
        · simp at h
        · simp at h

/-- Once the option loop has finished, `main` returns what `mainTail` computes. -/
theorem mainBody_of_loop (atoi : String → Int) (name : String)
    (car : String → AMBE_MODE → Bool → String → Nat → Amplitude → Bool →
      String → String → Int × List Event)
    (fuel : Nat) (argv : List String) (st : GetoptState) (v : MainVars) (tr : List Event)
    (h : mainLoop atoi name argv fuel GetoptState.init MainVars.init [] = .done (st, v, tr)) :
    mainBody atoi name car fuel argv = .done (mainTail name car argv st v tr) := by
  simp [mainBody, h]

/-- With a known mode and two trailing arguments, the tail of `main` is decided by the
mode and FEC test alone. -/
theorem mainTail_known (name : String)
    (car : String → AMBE_MODE → Bool → String → Nat → Amplitude → Bool →
      String → String → Int × List Event)
    (argv : List String) (st : GetoptState) (v : MainVars) (tr : List Event)
    (hm : v.mode ≠ .MODE_UNKNOWN) (ha : (st.optind : Int) ≤ (argv.length : Int) - 2) :
    mainTail name car argv st v tr =
      if (v.mode = .MODE_DSTAR ∨ v.mode = .MODE_YSF) ∧ v.fec = false then
        (1, tr ++ [Event.stderr (name ++ ": incompatible mode and FEC settings\n")])
      else
        ((car v.signature v.mode v.fec v.port v.speed v.amplitude v.reset
            (argv.getD (argv.length - 2) "") (argv.getD (argv.length - 1) "")).1,
          tr ++ (car v.signature v.mode v.fec v.port v.speed v.amplitude v.reset
            (argv.getD (argv.length - 2) "") (argv.getD (argv.length - 1) "")).2) := by
  have ha1 : ¬ ((st.optind : Int) > (argv.length : Int) - 2) := by omega
  unfold mainTail
  simp only [ha1, hm, if_false]
  by_cases h1 : v.mode = .MODE_DSTAR <;> by_cases h2 : v.mode = .MODE_YSF <;>
    by_cases h3 : v.fec = false <;> simp [h1, h2, h3]

/-- Every call of `CAMBE2WAV::run` constructs the reader. -/
theorem CAMBE2WAV_run_has_call (K : AudioDefs) (w : World) (a : CAMBE2WAV) :
    ∃ e ∈ (a.run K w).2, e.isCall = true := by
  refine ⟨Event.AMBEFileReader_ctor a.m_input a.m_signature, ?_, rfl⟩
  rcases w with ⟨ro, sr, ch, wo, co, pf⟩
  cases ro <;> cases wo <;> cases co <;> simp [CAMBE2WAV.run]

/-- Every call of `CWAV2AMBE::run` constructs the reader. -/
theorem CWAV2AMBE_run_has_call (K : AudioDefs) (w : World) (b : CWAV2AMBE) :
    ∃ e ∈ (b.run K w).2, e.isCall = true := by
  refine ⟨Event.WAVFileReader_ctor b.m_input K.AUDIO_BLOCK_SIZE, ?_, rfl⟩
  rcases w with ⟨ro, sr, ch, wo, co, pf⟩
  by_cases h1 : sr = K.AUDIO_SAMPLE_RATE <;> by_cases h2 : ch > 1 <;>
    cases ro <;> cases wo <;> cases co <;> simp [CWAV2AMBE.run, h1, h2]

/-- The bundled `getopt` returns -1, leaving the globals alone, at the end of `argv` and at a
word that does not start with `-`. -/
theorem getopt_stop (argv : List String) (os : String) (st : GetoptState)
    (h : argv.length ≤ st.optind ∨ charAt (argv.getD st.optind "") 0 ≠ '-') :
    getopt argv os st = .ret (-1) st := by
  unfold getopt
  dsimp only
  by_cases a : st.optind ≥ argv.length
  · rw [if_pos a]
  · rw [if_neg a, if_pos]
    rcases h with h | h
    · exact absurd h a
    · exact Or.inl h

/-- The bundled `getopt` on an option that takes an argument, with a following word: it
returns the letter, points `optarg` at the following word and advances `optind` by two. -/
theorem getopt_option_with_arg (argv : List String) (st : GetoptState)
    (h0 : st.optind + 1 < argv.length)
    (ht : isOptionWithArg (argv.getD st.optind "")) :
    getopt argv "a:f:g:m:p:rs:" st =
      .ret (chr (charAt (argv.getD st.optind "") 1))
        ⟨some (argv.getD (st.optind + 1) ""), st.optind + 2⟩ := by
  obtain ⟨hd, hl⟩ := ht
  have h1 : ¬ (st.optind ≥ argv.length) := by omega
  have h2 : ¬ (st.optind + 1 ≥ argv.length) := by omega
  have h3 : ¬ (charAt (argv.getD st.optind "") 0 ≠ '-' ∨
      charAt (argv.getD st.optind "") 0 = Char.ofNat 0) := by
    rw [hd]; decide
  unfold getopt
  simp only [h1, h2, h3, if_false]
  simp only [argLetters, List.mem_cons, List.mem_singleton, List.not_mem_nil, or_false] at hl
  rcases hl with h | h | h | h | h | h <;> rw [h] <;> rfl

/-- The bundled `getopt` never decreases `optind` and never moves it past `argc`. -/
theorem getopt_optind_bounds (argv : List String) (os : String) (st st1 : GetoptState)
    (c : Int) (hle : st.optind ≤ argv.length) (h : getopt argv os st = .ret c st1) :
    st.optind ≤ st1.optind ∧ st1.optind ≤ argv.length := by
  unfold getopt at h
  dsimp only at h
  by_cases a : st.optind ≥ argv.length
  · rw [if_pos a] at h
    injection h with _ h2
    subst h2
    exact ⟨le_refl _, hle⟩
  · rw [if_neg a] at h
    by_cases b : charAt (argv.getD st.optind "") 0 ≠ '-' ∨
        charAt (argv.getD st.optind "") 0 = Char.ofNat 0
    · rw [if_pos b] at h
      injection h with _ h2
      subst h2
      exact ⟨le_refl _, hle⟩
    · rw [if_neg b] at h
      split at h
      · injection h with _ h2
        subst h2
        exact ⟨le_refl _, hle⟩
      · simp at h
      · rename_i x rest _
        by_cases d : rest.headD (Char.ofNat 0) = ':'
        · rw [if_pos d] at h
          by_cases e : st.optind + 1 ≥ argv.length
          · rw [if_pos e] at h
            injection h with _ h2
            subst h2
            simp only
            omega
          · rw [if_neg e] at h
            injection h with _ h2
            subst h2
            simp only
            omega
        · rw [if_neg d] at h
          injection h with _ h2
          subst h2
          exact ⟨le_refl _, hle⟩

/-- The `switch` on the letter of an option that takes an argument makes the assignment
`applyOption`. -/
theorem switchBody_option_with_arg (atoi : String → Int) (name : String) (t a : String)
    (v : MainVars) (tr : List Event) (ht : isOptionWithArg t) :
    switchBody atoi name (chr (charAt t 1)) (some a) v tr =
      .done (applyOption atoi v (t, a), tr) := by
  obtain ⟨_, hl⟩ := ht
  simp only [argLetters, List.mem_cons, List.mem_singleton, List.not_mem_nil, or_false] at hl
  rcases hl with h | h | h | h | h | h <;> rw [switchBody, applyOption] <;> simp only [h] <;> rfl

/-- Indexing the first word after a prefix. -/
theorem getD_append_optionWords_zero (pre : List String) (p : String × String)
    (l : List String) : (pre ++ (p.1 :: p.2 :: l)).getD pre.length "" = p.1 := by
  rw [List.getD_append_right _ _ _ _ (le_refl _)]
  simp

/-- Indexing the second word after a prefix. -/
theorem getD_append_optionWords_one (pre : List String) (p : String × String)
    (l : List String) : (pre ++ (p.1 :: p.2 :: l)).getD (pre.length + 1) "" = p.2 := by
  rw [List.getD_append_right _ _ _ _ (by omega)]
  simp

/-- The option loop on a command line made of options with arguments followed by words that
do not start with `-`: with more fuel than options it finishes, leaving `optind` after the
options, having made the assignments in order and written nothing. -/
theorem mainLoop_options (atoi : String → Int) (name : String) :
    ∀ (ps : List (String × String)) (pre rest : List String) (oa : Option String)
      (v : MainVars) (tr : List Event) (fuel : Nat),
      (∀ p ∈ ps, isOptionWithArg p.1) →
      (∀ r ∈ rest.head?, charAt r 0 ≠ '-') →
      ps.length < fuel →
      ∃ oa1, mainLoop atoi name (pre ++ (optionWords ps ++ rest)) fuel ⟨oa, pre.length⟩ v tr =
        .done (⟨oa1, pre.length + 2 * ps.length⟩, ps.foldl (applyOption atoi) v, tr) := by
  intro ps
  induction ps with
  | nil =>
    intro pre rest oa v tr fuel _ hrest hfuel
    obtain ⟨n, rfl⟩ : ∃ n, fuel = n + 1 := ⟨fuel - 1, by simp at hfuel; omega⟩
    refine ⟨oa, ?_⟩
    have hstop : getopt (pre ++ (optionWords [] ++ rest)) "a:f:g:m:p:rs:" ⟨oa, pre.length⟩ =
        .ret (-1) ⟨oa, pre.length⟩ := by
      apply getopt_stop
      cases rest with
      | nil => left; simp [optionWords]
      | cons r rs =>
        right
        have : (pre ++ (optionWords [] ++ r :: rs)).getD pre.length "" = r := by
          rw [List.getD_append_right _ _ _ _ (le_refl _)]
          simp [optionWords]
        show charAt ((pre ++ (optionWords [] ++ r :: rs)).getD pre.length "") 0 ≠ '-'
        rw [this]
        exact hrest r (by simp)
    rw [mainLoop, hstop]
    simp
  | cons p ps ih =>
    intro pre rest oa v tr fuel hps hrest hfuel
    obtain ⟨n, rfl⟩ : ∃ n, fuel = n + 1 := ⟨fuel - 1, by simp at hfuel; omega⟩
    have hp : isOptionWithArg p.1 := hps p (by simp)
    have hargv : pre ++ (optionWords (p :: ps) ++ rest) =
        pre ++ (p.1 :: p.2 :: (optionWords ps ++ rest)) := by simp [optionWords]
    have h0 := getD_append_optionWords_zero pre p (optionWords ps ++ rest)
    have h1 := getD_append_optionWords_one pre p (optionWords ps ++ rest)
    have hg : getopt (pre ++ (optionWords (p :: ps) ++ rest)) "a:f:g:m:p:rs:" ⟨oa, pre.length⟩ =
        .ret (chr (charAt p.1 1)) ⟨some p.2, pre.length + 2⟩ := by
      rw [hargv]
      have := getopt_option_with_arg (pre ++ (p.1 :: p.2 :: (optionWords ps ++ rest)))
        ⟨oa, pre.length⟩ (by simp) (by show isOptionWithArg _; rw [h0]; exact hp)
      rw [this]
      show GetoptResult.ret (chr (charAt ((pre ++ _).getD pre.length "") 1))
        ⟨some ((pre ++ _).getD (pre.length + 1) ""), pre.length + 2⟩ = _
      rw [h0, h1]
    have hne : chr (charAt p.1 1) ≠ -1 := by
      have : (0 : Int) ≤ Int.ofNat (charAt p.1 1).toNat := Int.ofNat_nonneg _
      unfold chr
      omega
    obtain ⟨oa1, hrec⟩ := ih (pre ++ [p.1, p.2]) rest (some p.2) (applyOption atoi v p) tr n
      (fun q hq => hps q (by simp [hq])) hrest
      (by simp only [List.length_cons] at hfuel; omega)
    refine ⟨oa1, ?_⟩
    rw [mainLoop, hg]
    simp only [hne, if_false]
    rw [switchBody_option_with_arg atoi name p.1 p.2 v tr hp]
    simp only
    have e1 : pre ++ (optionWords (p :: ps) ++ rest) =
        (pre ++ [p.1, p.2]) ++ (optionWords ps ++ rest) := by simp [optionWords]
    have e2 : (pre ++ [p.1, p.2]).length = pre.length + 2 := by simp
    rw [e1]
    rw [e2] at hrec
    rw [hrec]
    simp only [List.length_cons, List.foldl_cons]
    congr 3
    omega

/-- The lemma `mainLoop_options` from the initial globals and locals. -/
theorem mainLoop_from_init (atoi : String → Int) (name prog : String)
    (ps : List (String × String)) (rest : List String) (fuel : Nat)
    (hps : ∀ p ∈ ps, isOptionWithArg p.1) (hrest : ∀ r ∈ rest.head?, charAt r 0 ≠ '-')
    (hfuel : ps.length < fuel) :
    ∃ oa, mainLoop atoi name (prog :: (optionWords ps ++ rest)) fuel GetoptState.init
        MainVars.init [] =
      .done (⟨oa, 1 + 2 * ps.length⟩, ps.foldl (applyOption atoi) MainVars.init, []) := by
  have := mainLoop_options atoi name ps [prog] rest none MainVars.init [] fuel hps hrest hfuel
  simpa [GetoptState.init] using this

/-- When `getopt` returns an option without changing the globals, the option loop never
finishes. -/
theorem mainLoop_stuck (atoi : String → Int) (name : String) (argv : List String)
    (st : GetoptState) (c : Int)
    (hg : getopt argv "a:f:g:m:p:rs:" st = .ret c st) (hc : c ≠ -1)
    (hs : ∀ v tr, ∃ v1 tr1, switchBody atoi name c st.optarg v tr = .done (v1, tr1)) :
    ∀ (fuel : Nat) (v : MainVars) (tr : List Event),
      mainLoop atoi name argv fuel st v tr = .outOfFuel := by
  intro fuel
  induction fuel with
  | zero => intro v tr; rfl
  | succ n ih =>
    intro v tr
    obtain ⟨v1, tr1, h1⟩ := hs v tr
    rw [mainLoop, hg]
    simp only [hc, if_false]
    rw [h1]
    exact ih v1 tr1

/-- At a word starting with `-r` the bundled `getopt` returns the letter without advancing, and
the option loop never finishes. -/
theorem mainLoop_stuck_on_flag_r (atoi : String → Int) (name : String) (argv : List String)
    (st : GetoptState) (h0 : st.optind < argv.length)
    (hd : charAt (argv.getD st.optind "") 0 = '-')
    (hr : charAt (argv.getD st.optind "") 1 = 'r') :
    getopt argv "a:f:g:m:p:rs:" st = .ret (chr 'r') st ∧
    ∀ (fuel : Nat) (v : MainVars) (tr : List Event),
      mainLoop atoi name argv fuel st v tr = .outOfFuel := by
  have hg : getopt argv "a:f:g:m:p:rs:" st = .ret (chr 'r') st := by
    have h1 : ¬ (st.optind ≥ argv.length) := by omega
    have h3 : ¬ (charAt (argv.getD st.optind "") 0 ≠ '-' ∨
        charAt (argv.getD st.optind "") 0 = Char.ofNat 0) := by
      rw [hd]; decide
    unfold getopt
    simp only [h1, h3, if_false, hr]
    rfl
  refine ⟨hg, mainLoop_stuck atoi name argv st (chr 'r') hg (by decide) ?_⟩
  intro v tr
  exact ⟨{ v with reset := true }, tr, rfl⟩

/-- After a sequence of options with arguments the mode is the one of the last `-m`. -/
theorem foldl_applyOption_mode (atoi : String → Int) (ps : List (String × String)) :
    (ps.foldl (applyOption atoi) MainVars.init).mode = selectedMode ps := by
  induction ps using List.reverseRecOn with
  | nil => rfl
  | append_singleton ps p ih =>
    rw [List.foldl_append]
    simp only [List.foldl_cons, List.foldl_nil]
    unfold selectedMode lastModeArg at *
    rw [List.reverse_append]
    simp only [List.reverse_cons, List.reverse_nil, List.nil_append, List.singleton_append]
    by_cases hm : charAt p.1 1 = 'm'
    · have happ : ∀ x : MainVars, (applyOption atoi x p).mode = modeOfOptarg p.2 := by
        intro x
        unfold applyOption
        rw [hm]
        rfl
      rw [happ, List.find?_cons_of_pos _ (by simpa using hm)]
      rfl
    · have happ : ∀ x : MainVars, (applyOption atoi x p).mode = x.mode := by
        intro x
        unfold applyOption
        split_ifs <;> rfl
      rw [happ, List.find?_cons_of_neg _ (by simpa using hm)]
      exact ih

/-- The `strcmp` chain maps exactly the four mode names to the four modes. -/
theorem modeOfOptarg_spec (s : String) :
    (modeOfOptarg s = .MODE_DSTAR ↔ s = "dstar") ∧
    (modeOfOptarg s = .MODE_DMR ↔ s = "dmr") ∧
    (modeOfOptarg s = .MODE_YSF ↔ s = "ysf") ∧
    (modeOfOptarg s = .MODE_P25 ↔ s = "p25") ∧
    (modeOfOptarg s = .MODE_UNKNOWN ↔ s ≠ "dstar" ∧ s ≠ "dmr" ∧ s ≠ "ysf" ∧ s ≠ "p25") := by
  unfold modeOfOptarg
  by_cases h1 : s = "dstar"
  · subst h1; decide
  by_cases h2 : s = "dmr"
  · subst h2; decide
  by_cases h3 : s = "ysf"
  · subst h3; decide
  by_cases h4 : s = "p25"
  · subst h4; decide
  simp [h1, h2, h3, h4]

/-- Two words per option. -/
theorem optionWords_length (ps : List (String × String)) :
    (optionWords ps).length = 2 * ps.length := by
  induction ps with
  | nil => rfl
  | cons p ps ih =>
    simp only [optionWords, List.length_cons, ih]
    omega

/-- The last two words of a command line ending in `inp out`. -/
theorem argv_last_two (prog : String) (ps : List (String × String)) (inp out : String) :
    (prog :: (optionWords ps ++ [inp, out])).length = 2 * ps.length + 3 ∧
    (prog :: (optionWords ps ++ [inp, out])).getD
      ((prog :: (optionWords ps ++ [inp, out])).length - 2) "" = inp ∧
    (prog :: (optionWords ps ++ [inp, out])).getD
      ((prog :: (optionWords ps ++ [inp, out])).length - 1) "" = out := by
  have hlen : (prog :: (optionWords ps ++ [inp, out])).length = 2 * ps.length + 3 := by
    simp only [List.length_cons, List.length_append, optionWords_length, List.length_nil]
  refine ⟨hlen, ?_, ?_⟩
  · rw [hlen, show 2 * ps.length + 3 - 2 = (2 * ps.length) + 1 by omega, List.getD_cons_succ,
      List.getD_append_right _ _ _ _ (by rw [optionWords_length]), optionWords_length]
    simp
  · rw [hlen, show 2 * ps.length + 3 - 1 = (2 * ps.length + 1) + 1 by omega, List.getD_cons_succ,
      List.getD_append_right _ _ _ _ (by rw [optionWords_length]; omega), optionWords_length]
    simp

/-- The function `main` once the loop has finished with a known mode and two trailing arguments. -/
theorem mainBody_known (atoi : String → Int) (name : String)
    (car : String → AMBE_MODE → Bool → String → Nat → Amplitude → Bool →
      String → String → Int × List Event)
    (fuel : Nat) (argv : List String) (st : GetoptState) (v : MainVars) (tr : List Event)
    (hl : mainLoop atoi name argv fuel GetoptState.init MainVars.init [] = .done (st, v, tr))
    (hm : v.mode ≠ .MODE_UNKNOWN) (ha : (st.optind : Int) ≤ (argv.length : Int) - 2) :
    mainBody atoi name car fuel argv = .done
      (if (v.mode = .MODE_DSTAR ∨ v.mode = .MODE_YSF) ∧ v.fec = false then
        (1, tr ++ [Event.stderr (name ++ ": incompatible mode and FEC settings\n")])
      else
        ((car v.signature v.mode v.fec v.port v.speed v.amplitude v.reset
            (argv.getD (argv.length - 2) "") (argv.getD (argv.length - 1) "")).1,
          tr ++ (car v.signature v.mode v.fec v.port v.speed v.amplitude v.reset
            (argv.getD (argv.length - 2) "") (argv.getD (argv.length - 1) "")).2)) := by
  rw [mainBody_of_loop atoi name car fuel argv st v tr hl, mainTail_known _ _ argv st v tr hm ha]

/-- The function `main` on a command line made of options with arguments and two file names. -/
theorem mainBody_options (atoi : String → Int) (name : String)
    (car : String → AMBE_MODE → Bool → String → Nat → Amplitude → Bool →
      String → String → Int × List Event)
    (prog : String) (ps : List (String × String)) (inp out : String) (fuel : Nat)
    (hps : ∀ p ∈ ps, isOptionWithArg p.1) (hin : charAt inp 0 ≠ '-')
    (hfuel : ps.length < fuel)
    (hm : (ps.foldl (applyOption atoi) MainVars.init).mode ≠ .MODE_UNKNOWN) :
    mainBody atoi name car fuel (prog :: (optionWords ps ++ [inp, out])) = .done
      (if ((ps.foldl (applyOption atoi) MainVars.init).mode = .MODE_DSTAR ∨
          (ps.foldl (applyOption atoi) MainVars.init).mode = .MODE_YSF) ∧
          (ps.foldl (applyOption atoi) MainVars.init).fec = false then
        (1, [Event.stderr (name ++ ": incompatible mode and FEC settings\n")])
      else
        car (ps.foldl (applyOption atoi) MainVars.init).signature
          (ps.foldl (applyOption atoi) MainVars.init).mode
          (ps.foldl (applyOption atoi) MainVars.init).fec
          (ps.foldl (applyOption atoi) MainVars.init).port
          (ps.foldl (applyOption atoi) MainVars.init).speed
          (ps.foldl (applyOption atoi) MainVars.init).amplitude
          (ps.foldl (applyOption atoi) MainVars.init).reset inp out) := by
  have hrest : ∀ r ∈ [inp, out].head?, charAt r 0 ≠ '-' := by
    intro r hr
    simp only [List.head?_cons, Option.mem_def, Option.some.injEq] at hr
    rw [← hr]
    exact hin
  obtain ⟨oa, hl⟩ := mainLoop_from_init atoi name prog ps [inp, out] fuel hps hrest hfuel
  obtain ⟨hlen, h2, h1⟩ := argv_last_two prog ps inp out
  have ha : (((⟨oa, 1 + 2 * ps.length⟩ : GetoptState).optind : Nat) : Int) ≤
      ((prog :: (optionWords ps ++ [inp, out])).length : Int) - 2 := by
    rw [hlen]
    push_cast
    omega
  rw [mainBody_known atoi name car fuel _ _ _ _ hl hm ha, h2, h1]
  simp only [List.nil_append]

/-- The calls of `controller.close()` in `CAMBE2WAV::run`: once, after a successful open and
after `process()`; after a failed open the writer and the reader are closed and 1 is returned. -/
theorem CAMBE2WAV_run_controller_close (K : AudioDefs) (w : World) (a : CAMBE2WAV) :
    List.count Event.controller_close (a.run K w).2 =
        List.count (Event.controller_open true) (a.run K w).2
      ∧ List.count (Event.controller_open true) (a.run K w).2 ≤ 1
      ∧ (Event.controller_close ∈ (a.run K w).2 →
          List.indexOf (Event.controller_open true) (a.run K w).2 <
            List.indexOf (Event.controller_process w.processFatal) (a.run K w).2 ∧
          List.indexOf (Event.controller_process w.processFatal) (a.run K w).2 <
            List.indexOf Event.controller_close (a.run K w).2)
      ∧ (Event.controller_open false ∈ (a.run K w).2 →
          Event.controller_close ∉ (a.run K w).2 ∧ Event.writer_close ∈ (a.run K w).2 ∧
          Event.reader_close ∈ (a.run K w).2)
      ∧ (Event.controller_open false ∈ (a.run K w).2 →
          (a.run K w).1 = 1 ∧
          List.indexOf (Event.controller_open false) (a.run K w).2 <
            List.indexOf Event.writer_close (a.run K w).2 ∧
          List.indexOf Event.writer_close (a.run K w).2 <
            List.indexOf Event.reader_close (a.run K w).2)
      ∧ (w.readerOpen = true → w.writerOpen = true → w.controllerOpen = false →
          a.run K w = (1, [Event.AMBEFileReader_ctor a.m_input a.m_signature,
            Event.reader_open true,
            Event.WAVFileWriter_ctor a.m_output K.AUDIO_SAMPLE_RATE 1 16 K.AUDIO_BLOCK_SIZE,
            Event.writer_open true,
            Event.controller_ctor a.m_port a.m_speed a.m_mode a.m_fec a.m_amplitude a.m_reset,
            Event.controller_open false, Event.writer_close, Event.reader_close])) := by
  rcases w with ⟨ro, sr, ch, wo, co, pf⟩
  refine ⟨?_, ?_, ?_, ?_, ?_, ?_⟩
  all_goals
    cases ro <;> cases wo <;> cases co <;>
      simp [CAMBE2WAV.run, List.indexOf_cons]

/-- The calls of `controller.close()` in `CWAV2AMBE::run`: once, after a successful open and
after `process()`; after a failed open the writer and the reader are closed and 1 is returned. -/
theorem CWAV2AMBE_run_controller_close (K : AudioDefs) (w : World) (b : CWAV2AMBE) :
    List.count Event.controller_close (b.run K w).2 =
        List.count (Event.controller_open true) (b.run K w).2
      ∧ List.count (Event.controller_open true) (b.run K w).2 ≤ 1
      ∧ (Event.controller_close ∈ (b.run K w).2 →
          List.indexOf (Event.controller_open true) (b.run K w).2 <
            List.indexOf (Event.controller_process w.processFatal) (b.run K w).2 ∧
          List.indexOf (Event.controller_process w.processFatal) (b.run K w).2 <
            List.indexOf Event.controller_close (b.run K w).2)
      ∧ (Event.controller_open false ∈ (b.run K w).2 →
          Event.controller_close ∉ (b.run K w).2 ∧ Event.writer_close ∈ (b.run K w).2 ∧
          Event.reader_close ∈ (b.run K w).2)
      ∧ (Event.controller_open false ∈ (b.run K w).2 →
          (b.run K w).1 = 1 ∧
          List.indexOf (Event.controller_open false) (b.run K w).2 <
            List.indexOf Event.writer_close (b.run K w).2 ∧
          List.indexOf Event.writer_close (b.run K w).2 <
            List.indexOf Event.reader_close (b.run K w).2)
      ∧ (w.readerOpen = true → w.sampleRate = K.AUDIO_SAMPLE_RATE → w.channels ≤ 1 →
          w.writerOpen = true → w.controllerOpen = false →
          b.run K w = (1, [Event.WAVFileReader_ctor b.m_input K.AUDIO_BLOCK_SIZE,
            Event.reader_open true,
            Event.AMBEFileWriter_ctor b.m_output b.m_signature,
            Event.writer_open true,
            Event.controller_ctor b.m_port b.m_speed b.m_mode b.m_fec b.m_amplitude b.m_reset,
            Event.controller_open false, Event.writer_close, Event.reader_close])) := by
  rcases w with ⟨ro, sr, ch, wo, co, pf⟩
  refine ⟨?_, ?_, ?_, ?_, ?_, ?_⟩
  all_goals
    by_cases h1 : sr = K.AUDIO_SAMPLE_RATE <;> by_cases h2 : ch > 1 <;>
      cases ro <;> cases wo <;> cases co <;>
      simp [CWAV2AMBE.run, h1, h2, List.indexOf_cons]

/-- One round of the option loop on an option that takes an argument, with a following word. -/
theorem mainLoop_step_option (atoi : String → Int) (name : String) (argv : List String)
    (st : GetoptState) (v : MainVars) (tr : List Event) (fuel : Nat)
    (h0 : st.optind + 1 < argv.length) (ht : isOptionWithArg (argv.getD st.optind "")) :
    mainLoop atoi name argv (fuel + 1) st v tr =
      mainLoop atoi name argv fuel ⟨some (argv.getD (st.optind + 1) ""), st.optind + 2⟩
        (applyOption atoi v (argv.getD st.optind "", argv.getD (st.optind + 1) "")) tr := by
  have hne : chr (charAt (argv.getD st.optind "") 1) ≠ -1 := by
    have : (0 : Int) ≤ Int.ofNat (charAt (argv.getD st.optind "") 1).toNat :=
      Int.ofNat_nonneg _
    unfold chr
    omega
  rw [mainLoop, getopt_option_with_arg argv st h0 ht]
  simp only [hne, if_false]
  rw [switchBody_option_with_arg atoi name _ _ v tr ht]

/-- On a command line that starts with one option with its argument and continues with a word
starting with `-r`, the option loop never finishes. -/
theorem mainLoop_option_then_flag_r (atoi : String → Int) (name prog t a r : String)
    (rest : List String) (ht : isOptionWithArg t) (hd : charAt r 0 = '-')
    (hr : charAt r 1 = 'r') (fuel : Nat) :
    mainLoop atoi name (prog :: t :: a :: r :: rest) fuel GetoptState.init MainVars.init [] =
      .outOfFuel := by
  cases fuel with
  | zero => rfl
  | succ n =>
    rw [mainLoop_step_option atoi name (prog :: t :: a :: r :: rest) GetoptState.init _ _ n
      (by simp [GetoptState.init]) ht]
    exact (mainLoop_stuck_on_flag_r atoi name (prog :: t :: a :: r :: rest) ⟨some a, 3⟩
      (by simp) hd hr).2 n _ _

/-! ## Theorems about run -/

/-- C2, as stated, fails: with reader, writer and controller all opening and `process()` ending
in a fatal error, both `run` methods call `process()` and return 0, not 1. -/
theorem C2_counterexample_run_returns_0_after_fatal_process :
    worldProcessFatal.readerOpen = true ∧ worldProcessFatal.writerOpen = true ∧
    worldProcessFatal.controllerOpen = true ∧ worldProcessFatal.processFatal = true ∧
    Event.controller_process true ∈ (sampleAMBE2WAV.run sampleDefs worldProcessFatal).2 ∧
    Event.controller_process true ∈ (sampleWAV2AMBE.run sampleDefs worldProcessFatal).2 ∧
    (sampleAMBE2WAV.run sampleDefs worldProcessFatal).1 = 0 ∧
    (sampleWAV2AMBE.run sampleDefs worldProcessFatal).1 = 0 ∧
    (sampleAMBE2WAV.run sampleDefs worldProcessFatal).1 ≠ 1 ∧
    (sampleWAV2AMBE.run sampleDefs worldProcessFatal).1 ≠ 1 := by
  decide

/-- C2 (amended): when reader, writer and controller all open (and, for WAV2AMBE, the input has
the expected sample rate and at most one channel), `run` calls `process()` once, then calls
`controller.close()`, `writer.close()` and `reader.close()` in that order and returns 0,
whatever the outcome of `process()`; the exit code of `run` never depends on that outcome;
`run` returns 1 only when one of the three opens failed or, in WAV2AMBE, the WAV format was
rejected, and it returns nothing but 0 or 1. -/
theorem C2_run_ignores_process_outcome (K : AudioDefs) (w : World) (a : CAMBE2WAV)
    (b : CWAV2AMBE) :
    (w.readerOpen = true → w.writerOpen = true → w.controllerOpen = true →
      (a.run K w).1 = 0 ∧ Event.controller_process w.processFatal ∈ (a.run K w).2)
    ∧ (w.readerOpen = true → w.writerOpen = true → w.controllerOpen = true →
      w.sampleRate = K.AUDIO_SAMPLE_RATE → w.channels ≤ 1 →
      (b.run K w).1 = 0 ∧ Event.controller_process w.processFatal ∈ (b.run K w).2)
    ∧ (∀ fatal : Bool, (a.run K { w with processFatal := fatal }).1 = (a.run K w).1)
    ∧ (∀ fatal : Bool, (b.run K { w with processFatal := fatal }).1 = (b.run K w).1)
    ∧ (w.readerOpen = true → w.writerOpen = true → w.controllerOpen = true →
      a.run K w = (0, [Event.AMBEFileReader_ctor a.m_input a.m_signature,
        Event.reader_open true,
        Event.WAVFileWriter_ctor a.m_output K.AUDIO_SAMPLE_RATE 1 16 K.AUDIO_BLOCK_SIZE,
        Event.writer_open true,
        Event.controller_ctor a.m_port a.m_speed a.m_mode a.m_fec a.m_amplitude a.m_reset,
        Event.controller_open true, Event.controller_process w.processFatal,
        Event.controller_close, Event.writer_close, Event.reader_close]))
    ∧ (w.readerOpen = true → w.writerOpen = true → w.controllerOpen = true →
      w.sampleRate = K.AUDIO_SAMPLE_RATE → w.channels ≤ 1 →
      b.run K w = (0, [Event.WAVFileReader_ctor b.m_input K.AUDIO_BLOCK_SIZE,
        Event.reader_open true,
        Event.AMBEFileWriter_ctor b.m_output b.m_signature,
        Event.writer_open true,
        Event.controller_ctor b.m_port b.m_speed b.m_mode b.m_fec b.m_amplitude b.m_reset,
        Event.controller_open true, Event.controller_process w.processFatal,
        Event.controller_close, Event.writer_close, Event.reader_close]))
    ∧ ((a.run K w).1 = 1 →
      w.readerOpen = false ∨ w.writerOpen = false ∨ w.controllerOpen = false)
    ∧ ((b.run K w).1 = 1 →
      w.readerOpen = false ∨ w.writerOpen = false ∨ w.controllerOpen = false ∨
      w.sampleRate ≠ K.AUDIO_SAMPLE_RATE ∨ w.channels > 1)
    ∧ ((a.run K w).1 = 0 ∨ (a.run K w).1 = 1) ∧ ((b.run K w).1 = 0 ∨ (b.run K w).1 = 1) := by
  rcases w with ⟨ro, sr, ch, wo, co, pf⟩
  refine ⟨?_, ?_, ?_, ?_, ?_, ?_, ?_, ?_, ?_, ?_⟩
  all_goals
    by_cases h1 : sr = K.AUDIO_SAMPLE_RATE <;> by_cases h2 : ch > 1 <;>
      cases ro <;> cases wo <;> cases co <;>
      simp [CAMBE2WAV.run, CWAV2AMBE.run, h1, h2]

/-- Witness of C2 (amended) at the world where `process()` fails fatally: the whole sequence
of calls, ending with the three closes, and exit code 0. -/
theorem C2_run_ignores_process_outcome_witness :
    sampleAMBE2WAV.run sampleDefs worldProcessFatal =
      (0, [Event.AMBEFileReader_ctor "in.ambe" "", Event.reader_open true,
        Event.WAVFileWriter_ctor "out.wav" 8000 1 16 160, Event.writer_open true,
        Event.controller_ctor "/dev/ttyUSB0" 230400 .MODE_DSTAR true .lit_1_0 false,
        Event.controller_open true, Event.controller_process true,
        Event.controller_close, Event.writer_close, Event.reader_close]) :=
  (C2_run_ignores_process_outcome sampleDefs worldProcessFatal sampleAMBE2WAV
    sampleWAV2AMBE).2.2.2.2.1 rfl rfl rfl

/-- C3: in both directions `run` returns 1 whenever one of the three `open` calls answers
false, for every combination of the three answers; it returns 0 only when all three answered
true, and then the three successful `open` calls are on the path taken.  The exit code is
always 0 or 1. -/
theorem C3_run_returns_1_on_open_failure (K : AudioDefs) (w : World) (a : CAMBE2WAV)
    (b : CWAV2AMBE) :
    ((w.readerOpen = false ∨ w.writerOpen = false ∨ w.controllerOpen = false) →
      (a.run K w).1 = 1 ∧ (b.run K w).1 = 1)
    ∧ ((Event.reader_open false ∈ (a.run K w).2 ∨ Event.writer_open false ∈ (a.run K w).2 ∨
        Event.controller_open false ∈ (a.run K w).2) → (a.run K w).1 = 1)
    ∧ ((Event.reader_open false ∈ (b.run K w).2 ∨ Event.writer_open false ∈ (b.run K w).2 ∨
        Event.controller_open false ∈ (b.run K w).2) → (b.run K w).1 = 1)
    ∧ ((a.run K w).1 = 0 →
        (w.readerOpen = true ∧ w.writerOpen = true ∧ w.controllerOpen = true) ∧
        Event.reader_open true ∈ (a.run K w).2 ∧ Event.writer_open true ∈ (a.run K w).2 ∧
        Event.controller_open true ∈ (a.run K w).2)
    ∧ ((b.run K w).1 = 0 →
        (w.readerOpen = true ∧ w.writerOpen = true ∧ w.controllerOpen = true) ∧
        Event.reader_open true ∈ (b.run K w).2 ∧ Event.writer_open true ∈ (b.run K w).2 ∧
        Event.controller_open true ∈ (b.run K w).2)
    ∧ ((a.run K w).1 = 0 ∨ (a.run K w).1 = 1) ∧ ((b.run K w).1 = 0 ∨ (b.run K w).1 = 1) := by
  rcases w with ⟨ro, sr, ch, wo, co, pf⟩
  by_cases h1 : sr = K.AUDIO_SAMPLE_RATE <;> by_cases h2 : ch > 1 <;>
    cases ro <;> cases wo <;> cases co <;>
    simp [CAMBE2WAV.run, CWAV2AMBE.run, h1, h2]

/-- Witness of C3 at the world where the serial controller does not open. -/
theorem C3_run_returns_1_on_open_failure_witness :
    (sampleAMBE2WAV.run sampleDefs worldControllerFails).1 = 1 ∧
    (sampleWAV2AMBE.run sampleDefs worldControllerFails).1 = 1 :=
  (C3_run_returns_1_on_open_failure sampleDefs worldControllerFails sampleAMBE2WAV
    sampleWAV2AMBE).1 (Or.inr (Or.inr rfl))

/-- C4, as stated, fails: when `controller.open()` answers false, both `run` methods return
through the early exit without any call of `controller.close()`. -/
theorem C4_counterexample_no_close_after_failed_open :
    Event.controller_open false ∈ (sampleAMBE2WAV.run sampleDefs worldControllerFails).2 ∧
    Event.controller_close ∉ (sampleAMBE2WAV.run sampleDefs worldControllerFails).2 ∧
    Event.controller_open false ∈ (sampleWAV2AMBE.run sampleDefs worldControllerFails).2 ∧
    Event.controller_close ∉ (sampleWAV2AMBE.run sampleDefs worldControllerFails).2 := by
  decide

/-- C4 (amended): in both directions `controller.close()` is called exactly once, after
`controller.open()` and `controller.process()`, on the path where `controller.open()` answered
true, and is not called on any other path; on the early exit taken when `controller.open()`
answers false, `run` calls `writer.close()`, then `reader.close()`, and returns 1, without
calling `controller.close()`. -/
theorem C4_controller_close_iff_open_succeeded (K : AudioDefs) (w : World) (a : CAMBE2WAV)
    (b : CWAV2AMBE) :
    (List.count Event.controller_close (a.run K w).2 =
        List.count (Event.controller_open true) (a.run K w).2
      ∧ List.count (Event.controller_open true) (a.run K w).2 ≤ 1
      ∧ (Event.controller_close ∈ (a.run K w).2 →
          List.indexOf (Event.controller_open true) (a.run K w).2 <
            List.indexOf (Event.controller_process w.processFatal) (a.run K w).2 ∧
          List.indexOf (Event.controller_process w.processFatal) (a.run K w).2 <
            List.indexOf Event.controller_close (a.run K w).2)
      ∧ (Event.controller_open false ∈ (a.run K w).2 →
          Event.controller_close ∉ (a.run K w).2 ∧ Event.writer_close ∈ (a.run K w).2 ∧
          Event.reader_close ∈ (a.run K w).2)
      ∧ (Event.controller_open false ∈ (a.run K w).2 →
          (a.run K w).1 = 1 ∧
          List.indexOf (Event.controller_open false) (a.run K w).2 <
            List.indexOf Event.writer_close (a.run K w).2 ∧
          List.indexOf Event.writer_close (a.run K w).2 <
            List.indexOf Event.reader_close (a.run K w).2)
      ∧ (w.readerOpen = true → w.writerOpen = true → w.controllerOpen = false →
          a.run K w = (1, [Event.AMBEFileReader_ctor a.m_input a.m_signature,
            Event.reader_open true,
            Event.WAVFileWriter_ctor a.m_output K.AUDIO_SAMPLE_RATE 1 16 K.AUDIO_BLOCK_SIZE,
            Event.writer_open true,
            Event.controller_ctor a.m_port a.m_speed a.m_mode a.m_fec a.m_amplitude a.m_reset,
            Event.controller_open false, Event.writer_close, Event.reader_close])))
    ∧ (List.count Event.controller_close (b.run K w).2 =
        List.count (Event.controller_open true) (b.run K w).2
      ∧ List.count (Event.controller_open true) (b.run K w).2 ≤ 1
      ∧ (Event.controller_close ∈ (b.run K w).2 →
          List.indexOf (Event.controller_open true) (b.run K w).2 <
            List.indexOf (Event.controller_process w.processFatal) (b.run K w).2 ∧
          List.indexOf (Event.controller_process w.processFatal) (b.run K w).2 <
            List.indexOf Event.controller_close (b.run K w).2)
      ∧ (Event.controller_open false ∈ (b.run K w).2 →
          Event.controller_close ∉ (b.run K w).2 ∧ Event.writer_close ∈ (b.run K w).2 ∧
          Event.reader_close ∈ (b.run K w).2)
      ∧ (Event.controller_open false ∈ (b.run K w).2 →
          (b.run K w).1 = 1 ∧
          List.indexOf (Event.controller_open false) (b.run K w).2 <
            List.indexOf Event.writer_close (b.run K w).2 ∧
          List.indexOf Event.writer_close (b.run K w).2 <
            List.indexOf Event.reader_close (b.run K w).2)
      ∧ (w.readerOpen = true → w.sampleRate = K.AUDIO_SAMPLE_RATE → w.channels ≤ 1 →
          w.writerOpen = true → w.controllerOpen = false →
          b.run K w = (1, [Event.WAVFileReader_ctor b.m_input K.AUDIO_BLOCK_SIZE,
            Event.reader_open true,
            Event.AMBEFileWriter_ctor b.m_output b.m_signature,
            Event.writer_open true,
            Event.controller_ctor b.m_port b.m_speed b.m_mode b.m_fec b.m_amplitude b.m_reset,
            Event.controller_open false, Event.writer_close, Event.reader_close]))) :=
  ⟨CAMBE2WAV_run_controller_close K w a, CWAV2AMBE_run_controller_close K w b⟩

/-- Witness of C4 (amended) at the world where the serial controller does not open: exit code
1, writer closed after the failed open, reader closed after the writer. -/
theorem C4_controller_close_iff_open_succeeded_witness :
    (sampleAMBE2WAV.run sampleDefs worldControllerFails).1 = 1 ∧
    List.indexOf (Event.controller_open false)
        (sampleAMBE2WAV.run sampleDefs worldControllerFails).2 <
      List.indexOf Event.writer_close (sampleAMBE2WAV.run sampleDefs worldControllerFails).2 ∧
    List.indexOf Event.writer_close (sampleAMBE2WAV.run sampleDefs worldControllerFails).2 <
      List.indexOf Event.reader_close (sampleAMBE2WAV.run sampleDefs worldControllerFails).2 :=
  (C4_controller_close_iff_open_succeeded sampleDefs worldControllerFails sampleAMBE2WAV
    sampleWAV2AMBE).1.2.2.2.2.1 (by decide)

/-- C5: in both directions, on every path of `run`, the reader is closed exactly once if its
`open()` answered true and never otherwise, and likewise the writer (whose `open()` is not
even called on some paths); each close comes after the matching open, and whenever the writer
is closed the reader is closed too, after the writer. -/
theorem C5_reader_writer_closed_once (K : AudioDefs) (w : World) (a : CAMBE2WAV)
    (b : CWAV2AMBE) :
    (List.count Event.reader_close (a.run K w).2 =
        List.count (Event.reader_open true) (a.run K w).2
      ∧ List.count (Event.reader_open true) (a.run K w).2 ≤ 1
      ∧ List.count Event.writer_close (a.run K w).2 =
        List.count (Event.writer_open true) (a.run K w).2
      ∧ List.count (Event.writer_open true) (a.run K w).2 ≤ 1
      ∧ (Event.reader_open true ∉ (a.run K w).2 → Event.reader_close ∉ (a.run K w).2)
      ∧ (Event.writer_open true ∉ (a.run K w).2 → Event.writer_close ∉ (a.run K w).2)
      ∧ (Event.reader_close ∈ (a.run K w).2 →
          List.indexOf (Event.reader_open true) (a.run K w).2 <
            List.indexOf Event.reader_close (a.run K w).2)
      ∧ (Event.writer_close ∈ (a.run K w).2 →
          List.indexOf (Event.writer_open true) (a.run K w).2 <
            List.indexOf Event.writer_close (a.run K w).2 ∧
          Event.reader_close ∈ (a.run K w).2 ∧
          List.indexOf Event.writer_close (a.run K w).2 <
            List.indexOf Event.reader_close (a.run K w).2))
    ∧ (List.count Event.reader_close (b.run K w).2 =
        List.count (Event.reader_open true) (b.run K w).2
      ∧ List.count (Event.reader_open true) (b.run K w).2 ≤ 1
      ∧ List.count Event.writer_close (b.run K w).2 =
        List.count (Event.writer_open true) (b.run K w).2
      ∧ List.count (Event.writer_open true) (b.run K w).2 ≤ 1
      ∧ (Event.reader_open true ∉ (b.run K w).2 → Event.reader_close ∉ (b.run K w).2)
      ∧ (Event.writer_open true ∉ (b.run K w).2 → Event.writer_close ∉ (b.run K w).2)
      ∧ (Event.reader_close ∈ (b.run K w).2 →
          List.indexOf (Event.reader_open true) (b.run K w).2 <
            List.indexOf Event.reader_close (b.run K w).2)
      ∧ (Event.writer_close ∈ (b.run K w).2 →
          List.indexOf (Event.writer_open true) (b.run K w).2 <
            List.indexOf Event.writer_close (b.run K w).2 ∧
          Event.reader_close ∈ (b.run K w).2 ∧
          List.indexOf Event.writer_close (b.run K w).2 <
            List.indexOf Event.reader_close (b.run K w).2)) := by
  rcases w with ⟨ro, sr, ch, wo, co, pf⟩
  by_cases h1 : sr = K.AUDIO_SAMPLE_RATE <;> by_cases h2 : ch > 1 <;>
    cases ro <;> cases wo <;> cases co <;>
    simp [CAMBE2WAV.run, CWAV2AMBE.run, h1, h2, List.indexOf_cons]

/-- Witness of C5 at the world where the serial controller does not open: the writer is closed
after its open and before the reader. -/
theorem C5_reader_writer_closed_once_witness :
    List.indexOf (Event.writer_open true) (sampleAMBE2WAV.run sampleDefs worldControllerFails).2 <
      List.indexOf Event.writer_close (sampleAMBE2WAV.run sampleDefs worldControllerFails).2 ∧
    Event.reader_close ∈ (sampleAMBE2WAV.run sampleDefs worldControllerFails).2 ∧
    List.indexOf Event.writer_close (sampleAMBE2WAV.run sampleDefs worldControllerFails).2 <
      List.indexOf Event.reader_close (sampleAMBE2WAV.run sampleDefs worldControllerFails).2 :=
  (C5_reader_writer_closed_once sampleDefs worldControllerFails sampleAMBE2WAV
    sampleWAV2AMBE).1.2.2.2.2.2.2.2 (by decide)

/-- C8: in both directions `run` calls `controller.process()` at most once; when it is called,
`reader.open()`, `writer.open()` and `controller.open()` have each answered true before it, in
that order, and `controller.close()` has not been called before it; on every path where one of
the three answered false `process()` is not called; `controller.close()` is only ever called
after `process()`. -/
theorem C8_process_only_after_three_opens (K : AudioDefs) (w : World) (a : CAMBE2WAV)
    (b : CWAV2AMBE) :
    (List.countP Event.isProcess (a.run K w).2 ≤ 1
      ∧ (∀ fatal, Event.controller_process fatal ∈ (a.run K w).2 →
          Event.reader_open true ∈ (a.run K w).2 ∧ Event.writer_open true ∈ (a.run K w).2 ∧
          Event.controller_open true ∈ (a.run K w).2 ∧
          List.indexOf (Event.reader_open true) (a.run K w).2 <
            List.indexOf (Event.writer_open true) (a.run K w).2 ∧
          List.indexOf (Event.writer_open true) (a.run K w).2 <
            List.indexOf (Event.controller_open true) (a.run K w).2 ∧
          List.indexOf (Event.controller_open true) (a.run K w).2 <
            List.indexOf (Event.controller_process fatal) (a.run K w).2 ∧
          List.indexOf (Event.controller_process fatal) (a.run K w).2 <
            List.indexOf Event.controller_close (a.run K w).2)
      ∧ ((Event.reader_open false ∈ (a.run K w).2 ∨ Event.writer_open false ∈ (a.run K w).2 ∨
          Event.controller_open false ∈ (a.run K w).2) →
          ∀ fatal, Event.controller_process fatal ∉ (a.run K w).2)
      ∧ ((w.readerOpen = false ∨ w.writerOpen = false ∨ w.controllerOpen = false) →
          ∀ fatal, Event.controller_process fatal ∉ (a.run K w).2)
      ∧ (Event.controller_close ∈ (a.run K w).2 →
          Event.controller_process w.processFatal ∈ (a.run K w).2 ∧
          List.indexOf (Event.controller_process w.processFatal) (a.run K w).2 <
            List.indexOf Event.controller_close (a.run K w).2))
    ∧ (List.countP Event.isProcess (b.run K w).2 ≤ 1
      ∧ (∀ fatal, Event.controller_process fatal ∈ (b.run K w).2 →
          Event.reader_open true ∈ (b.run K w).2 ∧ Event.writer_open true ∈ (b.run K w).2 ∧
          Event.controller_open true ∈ (b.run K w).2 ∧
          List.indexOf (Event.reader_open true) (b.run K w).2 <
            List.indexOf (Event.writer_open true) (b.run K w).2 ∧
          List.indexOf (Event.writer_open true) (b.run K w).2 <
            List.indexOf (Event.controller_open true) (b.run K w).2 ∧
          List.indexOf (Event.controller_open true) (b.run K w).2 <
            List.indexOf (Event.controller_process fatal) (b.run K w).2 ∧
          List.indexOf (Event.controller_process fatal) (b.run K w).2 <
            List.indexOf Event.controller_close (b.run K w).2)
      ∧ ((Event.reader_open false ∈ (b.run K w).2 ∨ Event.writer_open false ∈ (b.run K w).2 ∨
          Event.controller_open false ∈ (b.run K w).2) →
          ∀ fatal, Event.controller_process fatal ∉ (b.run K w).2)
      ∧ ((w.readerOpen = false ∨ w.writerOpen = false ∨ w.controllerOpen = false) →
          ∀ fatal, Event.controller_process fatal ∉ (b.run K w).2)
      ∧ (Event.controller_close ∈ (b.run K w).2 →
          Event.controller_process w.processFatal ∈ (b.run K w).2 ∧
          List.indexOf (Event.controller_process w.processFatal) (b.run K w).2 <
            List.indexOf Event.controller_close (b.run K w).2)) := by
  rcases w with ⟨ro, sr, ch, wo, co, pf⟩
  by_cases h1 : sr = K.AUDIO_SAMPLE_RATE <;> by_cases h2 : ch > 1 <;>
    cases ro <;> cases wo <;> cases co <;>
    simp [CAMBE2WAV.run, CWAV2AMBE.run, h1, h2, List.indexOf_cons, Event.isProcess]

/-- Witness of C8 at the world where everything opens: `process()` is called, after the three
successful opens in order and before `controller.close()`. -/
theorem C8_process_only_after_three_opens_witness :
    Event.reader_open true ∈ (sampleAMBE2WAV.run sampleDefs worldOk).2 ∧
    Event.writer_open true ∈ (sampleAMBE2WAV.run sampleDefs worldOk).2 ∧
    Event.controller_open true ∈ (sampleAMBE2WAV.run sampleDefs worldOk).2 ∧
    List.indexOf (Event.reader_open true) (sampleAMBE2WAV.run sampleDefs worldOk).2 <
      List.indexOf (Event.writer_open true) (sampleAMBE2WAV.run sampleDefs worldOk).2 ∧
    List.indexOf (Event.writer_open true) (sampleAMBE2WAV.run sampleDefs worldOk).2 <
      List.indexOf (Event.controller_open true) (sampleAMBE2WAV.run sampleDefs worldOk).2 ∧
    List.indexOf (Event.controller_open true) (sampleAMBE2WAV.run sampleDefs worldOk).2 <
      List.indexOf (Event.controller_process false) (sampleAMBE2WAV.run sampleDefs worldOk).2 ∧
    List.indexOf (Event.controller_process false) (sampleAMBE2WAV.run sampleDefs worldOk).2 <
      List.indexOf Event.controller_close (sampleAMBE2WAV.run sampleDefs worldOk).2 :=
  (C8_process_only_after_three_opens sampleDefs worldOk sampleAMBE2WAV sampleWAV2AMBE).1.2.1
    false (by decide)

/-- C9, as stated, fails: a WAV input that opens and reports 0 channels at the expected sample
rate has a channel count different from 1, yet `CWAV2AMBE::run` does not reject it: it opens
the AMBE writer and the serial controller and returns 0. -/
theorem C9_counterexample_zero_channels_accepted :
    worldZeroChannels.readerOpen = true ∧ worldZeroChannels.channels ≠ 1 ∧
    (sampleWAV2AMBE.run sampleDefs worldZeroChannels).1 = 0 ∧
    (sampleWAV2AMBE.run sampleDefs worldZeroChannels).1 ≠ 1 ∧
    Event.writer_open true ∈ (sampleWAV2AMBE.run sampleDefs worldZeroChannels).2 ∧
    Event.controller_open true ∈ (sampleWAV2AMBE.run sampleDefs worldZeroChannels).2 := by
  decide

/-- C9 (amended): for every opened WAV input whose sample rate differs from
`AUDIO_SAMPLE_RATE` or whose channel count is greater than 1, `CWAV2AMBE::run` closes the
reader and returns 1 without any call on the AMBE writer or the serial controller; `run`
returns 0 only for inputs at `AUDIO_SAMPLE_RATE` with at most one channel; and the WAV writer
of `CAMBE2WAV::run` is always created with `AUDIO_SAMPLE_RATE` and 1 channel. -/
theorem C9_wav_format_check (K : AudioDefs) (w : World) (a : CAMBE2WAV) (b : CWAV2AMBE) :
    (w.readerOpen = true → (w.sampleRate ≠ K.AUDIO_SAMPLE_RATE ∨ w.channels > 1) →
      (b.run K w).1 = 1 ∧
      List.count Event.reader_close (b.run K w).2 = 1 ∧
      (∀ e ∈ (b.run K w).2, e.onWriterOrController = false))
    ∧ ((b.run K w).1 = 0 → w.sampleRate = K.AUDIO_SAMPLE_RATE ∧ w.channels ≤ 1)
    ∧ (∀ output sampleRate channels sampleWidth blockSize,
        Event.WAVFileWriter_ctor output sampleRate channels sampleWidth blockSize ∈
            (a.run K w).2 →
          sampleRate = K.AUDIO_SAMPLE_RATE ∧ channels = 1) := by
  rcases w with ⟨ro, sr, ch, wo, co, pf⟩
  refine ⟨?_, ?_, ?_⟩
  · by_cases h1 : sr = K.AUDIO_SAMPLE_RATE <;> by_cases h2 : ch > 1 <;>
      cases ro <;> cases wo <;> cases co <;>
      simp [CWAV2AMBE.run, h1, h2, Event.onWriterOrController]
  · by_cases h1 : sr = K.AUDIO_SAMPLE_RATE <;> by_cases h2 : ch > 1 <;>
      cases ro <;> cases wo <;> cases co <;>
      simp [CWAV2AMBE.run, h1, h2]
    all_goals omega
  · cases ro <;> cases wo <;> cases co <;> simp [CAMBE2WAV.run]
    all_goals (intros; simp_all)

/-- Witness of C9 (amended) at a stereo input. -/
theorem C9_wav_format_check_witness :
    (sampleWAV2AMBE.run sampleDefs worldStereo).1 = 1 ∧
    List.count Event.reader_close (sampleWAV2AMBE.run sampleDefs worldStereo).2 = 1 ∧
    (∀ e ∈ (sampleWAV2AMBE.run sampleDefs worldStereo).2, e.onWriterOrController = false) :=
  (C9_wav_format_check sampleDefs worldStereo sampleAMBE2WAV sampleWAV2AMBE).1 rfl
    (Or.inr (by decide))

/-! ## Theorems about main -/

/-- The mode and FEC check of `main`: in both programs, once the option loop has finished with a known mode and `optind`
leaving at least two trailing arguments, `main` rejects (returns 1 after writing the
incompatibility message, with no call on any reader, writer or controller) exactly when the
mode is DSTAR or YSF and FEC is disabled; in every other case (DMR or P25 without FEC, any
known mode with FEC) it constructs the converter from the parsed values and the last two
arguments and returns the result of `run()`.  For a command line made of options with
arguments followed by two file names the loop does finish, with one unit of fuel per option
and one more, so `main` returns these results. -/
theorem main_mode_fec_check (atoi : String → Int) (K : AudioDefs) (w : World) :
    (∀ (fuel : Nat) (argv : List String) (st : GetoptState) (v : MainVars) (tr : List Event),
      mainLoop atoi "AMBE2WAV" argv fuel GetoptState.init MainVars.init [] = .done (st, v, tr) →
      v.mode ≠ .MODE_UNKNOWN → (st.optind : Int) ≤ (argv.length : Int) - 2 →
      (((v.mode = .MODE_DSTAR ∨ v.mode = .MODE_YSF) ∧ v.fec = false) →
        AMBE2WAV.main atoi K w fuel argv =
          .done (1, tr ++ [Event.stderr "AMBE2WAV: incompatible mode and FEC settings\n"]) ∧
        ∀ e ∈ tr ++ [Event.stderr "AMBE2WAV: incompatible mode and FEC settings\n"],
          e.isCall = false)
      ∧ (¬ ((v.mode = .MODE_DSTAR ∨ v.mode = .MODE_YSF) ∧ v.fec = false) →
        AMBE2WAV.main atoi K w fuel argv =
          .done (((CAMBE2WAV.ctor v.signature v.mode v.fec v.port v.speed v.amplitude v.reset
              (argv.getD (argv.length - 2) "") (argv.getD (argv.length - 1) "")).run K w).1,
            tr ++ ((CAMBE2WAV.ctor v.signature v.mode v.fec v.port v.speed v.amplitude v.reset
              (argv.getD (argv.length - 2) "") (argv.getD (argv.length - 1) "")).run K w).2) ∧
        ∃ e ∈ ((CAMBE2WAV.ctor v.signature v.mode v.fec v.port v.speed v.amplitude v.reset
              (argv.getD (argv.length - 2) "") (argv.getD (argv.length - 1) "")).run K w).2,
          e.isCall = true))
    ∧ (∀ (fuel : Nat) (argv : List String) (st : GetoptState) (v : MainVars) (tr : List Event),
      mainLoop atoi "WAV2AMBE" argv fuel GetoptState.init MainVars.init [] = .done (st, v, tr) →
      v.mode ≠ .MODE_UNKNOWN → (st.optind : Int) ≤ (argv.length : Int) - 2 →
      (((v.mode = .MODE_DSTAR ∨ v.mode = .MODE_YSF) ∧ v.fec = false) →
        WAV2AMBE.main atoi K w fuel argv =
          .done (1, tr ++ [Event.stderr "WAV2AMBE: incompatible mode and FEC settings\n"]) ∧
        ∀ e ∈ tr ++ [Event.stderr "WAV2AMBE: incompatible mode and FEC settings\n"],
          e.isCall = false)
      ∧ (¬ ((v.mode = .MODE_DSTAR ∨ v.mode = .MODE_YSF) ∧ v.fec = false) →
        WAV2AMBE.main atoi K w fuel argv =
          .done (((CWAV2AMBE.ctor v.signature v.mode v.fec v.port v.speed v.amplitude v.reset
              (argv.getD (argv.length - 2) "") (argv.getD (argv.length - 1) "")).run K w).1,
            tr ++ ((CWAV2AMBE.ctor v.signature v.mode v.fec v.port v.speed v.amplitude v.reset
              (argv.getD (argv.length - 2) "") (argv.getD (argv.length - 1) "")).run K w).2) ∧
        ∃ e ∈ ((CWAV2AMBE.ctor v.signature v.mode v.fec v.port v.speed v.amplitude v.reset
              (argv.getD (argv.length - 2) "") (argv.getD (argv.length - 1) "")).run K w).2,
          e.isCall = true))
    ∧ (∀ (prog : String) (ps : List (String × String)) (inp out : String) (fuel : Nat)
        (v : MainVars),
      (∀ p ∈ ps, isOptionWithArg p.1) → charAt inp 0 ≠ '-' → ps.length < fuel →
      v = ps.foldl (applyOption atoi) MainVars.init → v.mode ≠ .MODE_UNKNOWN →
      AMBE2WAV.main atoi K w fuel (prog :: (optionWords ps ++ [inp, out])) =
        .done (if (v.mode = .MODE_DSTAR ∨ v.mode = .MODE_YSF) ∧ v.fec = false then
            (1, [Event.stderr "AMBE2WAV: incompatible mode and FEC settings\n"])
          else
            (CAMBE2WAV.ctor v.signature v.mode v.fec v.port v.speed v.amplitude v.reset
              inp out).run K w) ∧
      WAV2AMBE.main atoi K w fuel (prog :: (optionWords ps ++ [inp, out])) =
        .done (if (v.mode = .MODE_DSTAR ∨ v.mode = .MODE_YSF) ∧ v.fec = false then
            (1, [Event.stderr "WAV2AMBE: incompatible mode and FEC settings\n"])
          else
            (CWAV2AMBE.ctor v.signature v.mode v.fec v.port v.speed v.amplitude v.reset
              inp out).run K w)) := by
  refine ⟨?_, ?_, ?_⟩
  · intro fuel argv st v tr hl hm ha
    obtain ⟨extra, hex, hcall⟩ := mainLoop_trace atoi _ argv fuel _ _ _ st v tr hl
    have hex1 : tr = extra := by simpa using hex
    have hmain := mainBody_known atoi "AMBE2WAV"
      (fun signature mode fec port speed amplitude reset input output =>
        (CAMBE2WAV.ctor signature mode fec port speed amplitude reset input output).run K w)
      fuel argv st v tr hl hm ha
    constructor
    · intro hc
      refine ⟨?_, ?_⟩
      · rw [AMBE2WAV.main, hmain, if_pos hc]
        rfl
      · intro e he
        rcases List.mem_append.mp he with h1 | h1
        · exact hcall e (hex1 ▸ h1)
        · simp only [List.mem_singleton] at h1
          subst h1
          rfl
    · intro hc
      refine ⟨?_, CAMBE2WAV_run_has_call K w _⟩
      rw [AMBE2WAV.main, hmain, if_neg hc]
  · intro fuel argv st v tr hl hm ha
    obtain ⟨extra, hex, hcall⟩ := mainLoop_trace atoi _ argv fuel _ _ _ st v tr hl
    have hex1 : tr = extra := by simpa using hex
    have hmain := mainBody_known atoi "WAV2AMBE"
      (fun signature mode fec port speed amplitude reset input output =>
        (CWAV2AMBE.ctor signature mode fec port speed amplitude reset input output).run K w)
      fuel argv st v tr hl hm ha
    constructor
    · intro hc
      refine ⟨?_, ?_⟩
      · rw [WAV2AMBE.main, hmain, if_pos hc]
        rfl
      · intro e he
        rcases List.mem_append.mp he with h1 | h1
        · exact hcall e (hex1 ▸ h1)
        · simp only [List.mem_singleton] at h1
          subst h1
          rfl
    · intro hc
      refine ⟨?_, CWAV2AMBE_run_has_call K w _⟩
      rw [WAV2AMBE.main, hmain, if_neg hc]
  · intro prog ps inp out fuel v hps hin hfuel hv hm
    subst hv
    constructor
    · rw [AMBE2WAV.main, mainBody_options atoi "AMBE2WAV" _ prog ps inp out fuel hps hin hfuel hm]
      rfl
    · rw [WAV2AMBE.main, mainBody_options atoi "WAV2AMBE" _ prog ps inp out fuel hps hin hfuel hm]
      rfl

/-- Example of the mode and FEC check: `AMBE2WAV -m dmr -f 0 in.ambe out.wav` goes on to `run()` and returns its
result, while `-m ysf -f 0` is rejected by both programs. -/
theorem main_mode_fec_check_example :
    (AMBE2WAV.main sampleAtoi sampleDefs worldOk 3
        ["AMBE2WAV", "-m", "dmr", "-f", "0", "in.ambe", "out.wav"] =
      .done (0, [Event.AMBEFileReader_ctor "in.ambe" "", Event.reader_open true,
        Event.WAVFileWriter_ctor "out.wav" 8000 1 16 160, Event.writer_open true,
        Event.controller_ctor "/dev/ttyUSB0" 230400 .MODE_DMR false .lit_1_0 false,
        Event.controller_open true, Event.controller_process false,
        Event.controller_close, Event.writer_close, Event.reader_close])) ∧
    (AMBE2WAV.main sampleAtoi sampleDefs worldOk 3
        ("AMBE2WAV" :: (optionWords [("-m", "ysf"), ("-f", "0")] ++ ["in.ambe", "out.wav"])) =
      .done (1, [Event.stderr "AMBE2WAV: incompatible mode and FEC settings\n"]) ∧
    WAV2AMBE.main sampleAtoi sampleDefs worldOk 3
        ("AMBE2WAV" :: (optionWords [("-m", "ysf"), ("-f", "0")] ++ ["in.ambe", "out.wav"])) =
      .done (1, [Event.stderr "WAV2AMBE: incompatible mode and FEC settings\n"])) :=
  ⟨(((main_mode_fec_check sampleAtoi sampleDefs worldOk).1 3
      ["AMBE2WAV", "-m", "dmr", "-f", "0", "in.ambe", "out.wav"] ⟨some "0", 5⟩
      { MainVars.init with mode := .MODE_DMR, fec := false } []
      (by decide) (by decide) (by decide)).2 (by decide)).1,
    (main_mode_fec_check sampleAtoi sampleDefs worldOk).2.2 "AMBE2WAV"
      [("-m", "ysf"), ("-f", "0")] "in.ambe" "out.wav" 3
      { MainVars.init with mode := .MODE_YSF, fec := false }
      (by decide) (by decide) (by decide) (by decide) (by decide)⟩

/-- The `-m` option: the `-m` argument is mapped to a mode by exact string comparison: `dstar`, `dmr`,
`ysf` and `p25` give DSTAR, DMR, YSF and P25, and every other string gives the unknown mode.
On a command line made of options with arguments followed by two file names, the option loop
of both programs finishes with the mode of the last `-m` (DSTAR when there is none); when that
mode is unknown, `main` returns 1 after the unknown-mode message, without constructing or
running the converter. -/
theorem main_mode_option (atoi : String → Int) (K : AudioDefs) (w : World) (prog : String)
    (ps : List (String × String)) (inp out : String) (fuel : Nat)
    (hps : ∀ p ∈ ps, isOptionWithArg p.1) (hin : charAt inp 0 ≠ '-')
    (hfuel : ps.length < fuel) :
    (∀ s, (modeOfOptarg s = .MODE_DSTAR ↔ s = "dstar") ∧
      (modeOfOptarg s = .MODE_DMR ↔ s = "dmr") ∧
      (modeOfOptarg s = .MODE_YSF ↔ s = "ysf") ∧
      (modeOfOptarg s = .MODE_P25 ↔ s = "p25") ∧
      (modeOfOptarg s = .MODE_UNKNOWN ↔ s ≠ "dstar" ∧ s ≠ "dmr" ∧ s ≠ "ysf" ∧ s ≠ "p25"))
    ∧ (∃ oa v, mainLoop atoi "AMBE2WAV" (prog :: (optionWords ps ++ [inp, out])) fuel
          GetoptState.init MainVars.init [] = .done (⟨oa, 1 + 2 * ps.length⟩, v, []) ∧
        v.mode = selectedMode ps)
    ∧ (∃ oa v, mainLoop atoi "WAV2AMBE" (prog :: (optionWords ps ++ [inp, out])) fuel
          GetoptState.init MainVars.init [] = .done (⟨oa, 1 + 2 * ps.length⟩, v, []) ∧
        v.mode = selectedMode ps)
    ∧ (selectedMode ps = .MODE_UNKNOWN →
        AMBE2WAV.main atoi K w fuel (prog :: (optionWords ps ++ [inp, out])) =
          .done (1, [Event.stderr "AMBE2WAV: unknown mode specified\n"]) ∧
        WAV2AMBE.main atoi K w fuel (prog :: (optionWords ps ++ [inp, out])) =
          .done (1, [Event.stderr "WAV2AMBE: unknown mode specified\n"])) := by
  have hrest : ∀ r ∈ [inp, out].head?, charAt r 0 ≠ '-' := by
    intro r hr
    simp only [List.head?_cons, Option.mem_def, Option.some.injEq] at hr
    rw [← hr]
    exact hin
  obtain ⟨hlen, _, _⟩ := argv_last_two prog ps inp out
  obtain ⟨oaA, hA⟩ := mainLoop_from_init atoi "AMBE2WAV" prog ps [inp, out] fuel hps hrest hfuel
  obtain ⟨oaW, hW⟩ := mainLoop_from_init atoi "WAV2AMBE" prog ps [inp, out] fuel hps hrest hfuel
  refine ⟨modeOfOptarg_spec, ⟨oaA, _, hA, foldl_applyOption_mode atoi ps⟩,
    ⟨oaW, _, hW, foldl_applyOption_mode atoi ps⟩, ?_⟩
  intro hu
  have hmode : (ps.foldl (applyOption atoi) MainVars.init).mode = .MODE_UNKNOWN := by
    rw [foldl_applyOption_mode]
    exact hu
  have hargs : ¬ (((1 + 2 * ps.length : Nat) : Int) >
      ((prog :: (optionWords ps ++ [inp, out])).length : Int) - 2) := by
    rw [hlen]
    push_cast
    omega
  constructor
  · rw [AMBE2WAV.main, mainBody_of_loop _ _ _ _ _ _ _ _ hA]
    unfold mainTail
    simp only [hargs, hmode, if_false, if_true]
    rfl
  · rw [WAV2AMBE.main, mainBody_of_loop _ _ _ _ _ _ _ _ hW]
    unfold mainTail
    simp only [hargs, hmode, if_false, if_true]
    rfl

/-- Example of the `-m` option on `-m dmr -m DMR in.ambe out.wav`: the last `-m` decides, its argument is
not one of the four names (the comparison is case-sensitive), and both programs return 1. -/
theorem main_mode_option_example :
    AMBE2WAV.main sampleAtoi sampleDefs worldOk 3
        ("AMBE2WAV" :: (optionWords [("-m", "dmr"), ("-m", "DMR")] ++ ["in.ambe", "out.wav"])) =
      .done (1, [Event.stderr "AMBE2WAV: unknown mode specified\n"]) ∧
    WAV2AMBE.main sampleAtoi sampleDefs worldOk 3
        ("AMBE2WAV" :: (optionWords [("-m", "dmr"), ("-m", "DMR")] ++ ["in.ambe", "out.wav"])) =
      .done (1, [Event.stderr "WAV2AMBE: unknown mode specified\n"]) :=
  (main_mode_option sampleAtoi sampleDefs worldOk "AMBE2WAV" [("-m", "dmr"), ("-m", "DMR")]
    "in.ambe" "out.wav" 3 (by decide) (by decide) (by decide)).2.2.2 (by decide)

/-- C1 fails on the code: `-m dmr -r in out` supplies a known mode (DMR, FEC enabled) and two
trailing file names, and `-r -m ysf -f 0 in out` supplies YSF without FEC, yet with the bundled
`getopt` `main` of either program reaches neither the mode and FEC check nor `run()`: with any
amount of fuel it has not returned, because `getopt` does not advance past `-r`. -/
theorem C1_known_mode_then_flag_r_never_returns :
    modeOfOptarg "dmr" = .MODE_DMR ∧ modeOfOptarg "ysf" = .MODE_YSF ∧
    ∀ (atoi : String → Int) (K : AudioDefs) (w : World) (fuel : Nat),
      AMBE2WAV.main atoi K w fuel ["AMBE2WAV", "-m", "dmr", "-r", "in.ambe", "out.wav"] =
        .outOfFuel ∧
      WAV2AMBE.main atoi K w fuel ["WAV2AMBE", "-m", "dmr", "-r", "in.wav", "out.ambe"] =
        .outOfFuel ∧
      AMBE2WAV.main atoi K w fuel
        ["AMBE2WAV", "-r", "-m", "ysf", "-f", "0", "in.ambe", "out.wav"] = .outOfFuel ∧
      WAV2AMBE.main atoi K w fuel
        ["WAV2AMBE", "-r", "-m", "ysf", "-f", "0", "in.wav", "out.ambe"] = .outOfFuel := by
  refine ⟨by decide, by decide, ?_⟩
  intro atoi K w fuel
  refine ⟨?_, ?_, ?_, ?_⟩
  · rw [AMBE2WAV.main, mainBody, mainLoop_option_then_flag_r atoi "AMBE2WAV" "AMBE2WAV" "-m"
      "dmr" "-r" ["in.ambe", "out.wav"] (by decide) (by decide) (by decide) fuel]
  · rw [WAV2AMBE.main, mainBody, mainLoop_option_then_flag_r atoi "WAV2AMBE" "WAV2AMBE" "-m"
      "dmr" "-r" ["in.wav", "out.ambe"] (by decide) (by decide) (by decide) fuel]
  · rw [AMBE2WAV.main, mainBody,
      (mainLoop_stuck_on_flag_r atoi "AMBE2WAV"
        ["AMBE2WAV", "-r", "-m", "ysf", "-f", "0", "in.ambe", "out.wav"] GetoptState.init
        (by decide) (by decide) (by decide)).2 fuel]
  · rw [WAV2AMBE.main, mainBody,
      (mainLoop_stuck_on_flag_r atoi "WAV2AMBE"
        ["WAV2AMBE", "-r", "-m", "ysf", "-f", "0", "in.wav", "out.ambe"] GetoptState.init
        (by decide) (by decide) (by decide)).2 fuel]

/-- C6 fails on the code: `-m bogus -r in out` gives an `-m` argument that is none of the four
names (so the mode is unknown) and two trailing file names, yet with the bundled `getopt` `main`
of either program does not return 1: with any amount of fuel it has not returned, because
`getopt` does not advance past `-r`. -/
theorem C6_unknown_mode_then_flag_r_never_returns :
    modeOfOptarg "bogus" = .MODE_UNKNOWN ∧
    ∀ (atoi : String → Int) (K : AudioDefs) (w : World) (fuel : Nat),
      AMBE2WAV.main atoi K w fuel ["AMBE2WAV", "-m", "bogus", "-r", "in.ambe", "out.wav"] =
        .outOfFuel ∧
      WAV2AMBE.main atoi K w fuel ["WAV2AMBE", "-m", "bogus", "-r", "in.wav", "out.ambe"] =
        .outOfFuel := by
  refine ⟨by decide, ?_⟩
  intro atoi K w fuel
  refine ⟨?_, ?_⟩
  · rw [AMBE2WAV.main, mainBody, mainLoop_option_then_flag_r atoi "AMBE2WAV" "AMBE2WAV" "-m"
      "bogus" "-r" ["in.ambe", "out.wav"] (by decide) (by decide) (by decide) fuel]
  · rw [WAV2AMBE.main, mainBody, mainLoop_option_then_flag_r atoi "WAV2AMBE" "WAV2AMBE" "-m"
      "bogus" "-r" ["in.wav", "out.ambe"] (by decide) (by decide) (by decide) fuel]

/-- C10 fails on the code: on `-r` the bundled `getopt` returns the letter and leaves `optind`
at 1, and on the unknown option `-x` it returns `?` and leaves `optind` at 1; the option loop
of `main` then calls `getopt` on the same word again and again, so that with any amount of
fuel `main` of either program has not returned on `-r in out`, nor on `-x in out`. -/
theorem C10_flag_r_never_terminates :
    getopt ["AMBE2WAV", "-r", "in.ambe", "out.wav"] "a:f:g:m:p:rs:" GetoptState.init =
      .ret (chr 'r') GetoptState.init ∧
    getopt ["AMBE2WAV", "-x", "in.ambe", "out.wav"] "a:f:g:m:p:rs:" GetoptState.init =
      .ret (chr '?') GetoptState.init ∧
    ∀ (atoi : String → Int) (K : AudioDefs) (w : World) (fuel : Nat),
      AMBE2WAV.main atoi K w fuel ["AMBE2WAV", "-r", "in.ambe", "out.wav"] = .outOfFuel ∧
      WAV2AMBE.main atoi K w fuel ["WAV2AMBE", "-r", "in.wav", "out.ambe"] = .outOfFuel ∧
      AMBE2WAV.main atoi K w fuel ["AMBE2WAV", "-x", "in.ambe", "out.wav"] = .outOfFuel ∧
      WAV2AMBE.main atoi K w fuel ["WAV2AMBE", "-x", "in.wav", "out.ambe"] = .outOfFuel := by
  refine ⟨by decide, by decide, ?_⟩
  intro atoi K w fuel
  refine ⟨?_, ?_, ?_, ?_⟩
  · rw [AMBE2WAV.main, mainBody,
      (mainLoop_stuck_on_flag_r atoi "AMBE2WAV" ["AMBE2WAV", "-r", "in.ambe", "out.wav"] GetoptState.init
        (by decide) (by decide) (by decide)).2 fuel]
  · rw [WAV2AMBE.main, mainBody,
      (mainLoop_stuck_on_flag_r atoi "WAV2AMBE" ["WAV2AMBE", "-r", "in.wav", "out.ambe"] GetoptState.init
        (by decide) (by decide) (by decide)).2 fuel]
  · rw [AMBE2WAV.main, mainBody,
      mainLoop_stuck atoi "AMBE2WAV" ["AMBE2WAV", "-x", "in.ambe", "out.wav"]
        GetoptState.init (chr '?') (by decide) (by decide) (fun v tr => ⟨v, tr, rfl⟩) fuel]
  · rw [WAV2AMBE.main, mainBody,
      mainLoop_stuck atoi "WAV2AMBE" ["WAV2AMBE", "-x", "in.wav", "out.ambe"]
        GetoptState.init (chr '?') (by decide) (by decide) (fun v tr => ⟨v, tr, rfl⟩) fuel]

end AMBETools
